import Mathlib

/-!
# Layer adapter (`sdm::HWCLayer`, hwc_layers.cpp)

A shallow embedding of the per-layer state translator of the hwc2 display
adapter.  Integers of the C++ code are `Int`/`Nat` with explicit wrap-around
where it matters, enumerations are inductive types, and constants that the
translation unit takes from headers outside the sources (pixel-format codes,
private-handle flag bits, change-bitmask bits) are fields of parameter
structures.
-/

namespace sdm

/-! ## Formats -/

/-- The `LayerBufferFormat` enumerators that hwc_layers.cpp mentions. -/
inductive LayerBufferFormat where
  | kFormatInvalid
  | kFormatARGB8888
  | kFormatRGBA8888
  | kFormatRGBA5551
  | kFormatRGBA4444
  | kFormatBGRA8888
  | kFormatRGBX8888
  | kFormatBGRX8888
  | kFormatRGB888
  | kFormatRGB565
  | kFormatBGR565
  | kFormatYCbCr420SemiPlanarVenus
  | kFormatYCrCb420SemiPlanarVenus
  | kFormatYCrCb420PlanarStride16
  | kFormatYCrCb420SemiPlanar
  | kFormatYCbCr420SemiPlanar
  | kFormatYCbCr422H2V1SemiPlanar
  | kFormatYCbCr422H2V1Packed
  | kFormatRGBA1010102
  | kFormatARGB2101010
  | kFormatRGBX1010102
  | kFormatXRGB2101010
  | kFormatBGRA1010102
  | kFormatABGR2101010
  | kFormatBGRX1010102
  | kFormatXBGR2101010
  | kFormatYCbCr420P010
  | kFormatRGBA8888Ubwc
  | kFormatRGBX8888Ubwc
  | kFormatBGR565Ubwc
  | kFormatYCbCr420SPVenusUbwc
  | kFormatRGBA1010102Ubwc
  | kFormatRGBX1010102Ubwc
  | kFormatYCbCr420TP10Ubwc
  deriving DecidableEq, Repr

open LayerBufferFormat

/-- The hardware-compressed (UBWC) members of `LayerBufferFormat`. -/
def LayerBufferFormat.isUbwc : LayerBufferFormat → Bool
  | kFormatRGBA8888Ubwc => true
  | kFormatRGBX8888Ubwc => true
  | kFormatBGR565Ubwc => true
  | kFormatYCbCr420SPVenusUbwc => true
  | kFormatRGBA1010102Ubwc => true
  | kFormatRGBX1010102Ubwc => true
  | kFormatYCbCr420TP10Ubwc => true
  | _ => false

/-- The `HAL_PIXEL_FORMAT_*` codes used as case labels by `GetSDMFormat`.  Their
numeric values come from the platform and gralloc headers, which are not part of
the sources, so they are parameters. -/
structure HalPixelFormat where
  RGBA_8888 : Int
  RGBA_5551 : Int
  RGBA_4444 : Int
  BGRA_8888 : Int
  RGBX_8888 : Int
  BGRX_8888 : Int
  RGB_888 : Int
  RGB_565 : Int
  BGR_565 : Int
  NV12_ENCODEABLE : Int
  YCbCr_420_SP_VENUS : Int
  YCrCb_420_SP_VENUS : Int
  YCbCr_420_SP_VENUS_UBWC : Int
  YV12 : Int
  YCrCb_420_SP : Int
  YCbCr_420_SP : Int
  YCbCr_422_SP : Int
  YCbCr_422_I : Int
  RGBA_1010102 : Int
  ARGB_2101010 : Int
  RGBX_1010102 : Int
  XRGB_2101010 : Int
  BGRA_1010102 : Int
  ABGR_2101010 : Int
  BGRX_1010102 : Int
  XBGR_2101010 : Int
  YCbCr_420_P010 : Int
  YCbCr_420_TP10_UBWC : Int

/-- The bits of `private_handle_t::flags` and the buffer-type code that
`HWCLayer` tests; values are header constants, taken as parameters.  A flag
word is represented by its 32-bit two's-complement pattern, a `Nat`. -/
structure PrivFlags where
  PRIV_FLAGS_UBWC_ALIGNED : Nat
  PRIV_FLAGS_SECURE_BUFFER : Nat
  PRIV_FLAGS_SECURE_DISPLAY : Nat
  BUFFER_TYPE_VIDEO : Int

/-- The C test `flags & mask` used as a condition. -/
def flagSet (flags mask : Nat) : Bool := flags &&& mask != 0

/-- The case labels of the UBWC switch of `GetSDMFormat`, in source order, each
with the format assigned under it. -/
def ubwcTable (H : HalPixelFormat) : List (Int × LayerBufferFormat) :=
  [ (H.RGBA_8888, kFormatRGBA8888Ubwc),
    (H.RGBX_8888, kFormatRGBX8888Ubwc),
    (H.BGR_565, kFormatBGR565Ubwc),
    (H.YCbCr_420_SP_VENUS, kFormatYCbCr420SPVenusUbwc),
    (H.YCbCr_420_SP_VENUS_UBWC, kFormatYCbCr420SPVenusUbwc),
    (H.NV12_ENCODEABLE, kFormatYCbCr420SPVenusUbwc),
    (H.RGBA_1010102, kFormatRGBA1010102Ubwc),
    (H.RGBX_1010102, kFormatRGBX1010102Ubwc) ]

/-- The case labels of the linear switch of `GetSDMFormat`, in source order,
each with the format assigned under it. -/
def linearTable (H : HalPixelFormat) : List (Int × LayerBufferFormat) :=
  [ (H.RGBA_8888, kFormatRGBA8888),
    (H.RGBA_5551, kFormatRGBA5551),
    (H.RGBA_4444, kFormatRGBA4444),
    (H.BGRA_8888, kFormatBGRA8888),
    (H.RGBX_8888, kFormatRGBX8888),
    (H.BGRX_8888, kFormatBGRX8888),
    (H.RGB_888, kFormatRGB888),
    (H.RGB_565, kFormatRGB565),
    (H.BGR_565, kFormatBGR565),
    (H.NV12_ENCODEABLE, kFormatYCbCr420SemiPlanarVenus),
    (H.YCbCr_420_SP_VENUS, kFormatYCbCr420SemiPlanarVenus),
    (H.YCrCb_420_SP_VENUS, kFormatYCrCb420SemiPlanarVenus),
    (H.YCbCr_420_SP_VENUS_UBWC, kFormatYCbCr420SPVenusUbwc),
    (H.YV12, kFormatYCrCb420PlanarStride16),
    (H.YCrCb_420_SP, kFormatYCrCb420SemiPlanar),
    (H.YCbCr_420_SP, kFormatYCbCr420SemiPlanar),
    (H.YCbCr_422_SP, kFormatYCbCr422H2V1SemiPlanar),
    (H.YCbCr_422_I, kFormatYCbCr422H2V1Packed),
    (H.RGBA_1010102, kFormatRGBA1010102),
    (H.ARGB_2101010, kFormatARGB2101010),
    (H.RGBX_1010102, kFormatRGBX1010102),
    (H.XRGB_2101010, kFormatXRGB2101010),
    (H.BGRA_1010102, kFormatBGRA1010102),
    (H.ABGR_2101010, kFormatABGR2101010),
    (H.BGRX_1010102, kFormatBGRX1010102),
    (H.XBGR_2101010, kFormatXBGR2101010),
    (H.YCbCr_420_P010, kFormatYCbCr420P010),
    (H.YCbCr_420_TP10_UBWC, kFormatYCbCr420TP10Ubwc) ]

/-- The eight case labels of the UBWC switch of `GetSDMFormat`.  C++ rejects a
switch with two equal case constants, so on every platform the code compiles on
they are pairwise distinct. -/
def ubwcCodes (H : HalPixelFormat) : List Int :=
  [H.RGBA_8888, H.RGBX_8888, H.BGR_565, H.YCbCr_420_SP_VENUS, H.YCbCr_420_SP_VENUS_UBWC,
   H.NV12_ENCODEABLE, H.RGBA_1010102, H.RGBX_1010102]

/-- The twenty-eight case labels of the linear switch of `GetSDMFormat`, pairwise
distinct on every platform the code compiles on. -/
def linearCodes (H : HalPixelFormat) : List Int :=
  [H.RGBA_8888, H.RGBA_5551, H.RGBA_4444, H.BGRA_8888, H.RGBX_8888, H.BGRX_8888, H.RGB_888,
   H.RGB_565, H.BGR_565, H.NV12_ENCODEABLE, H.YCbCr_420_SP_VENUS, H.YCrCb_420_SP_VENUS,
   H.YCbCr_420_SP_VENUS_UBWC, H.YV12, H.YCrCb_420_SP, H.YCbCr_420_SP, H.YCbCr_422_SP,
   H.YCbCr_422_I, H.RGBA_1010102, H.ARGB_2101010, H.RGBX_1010102, H.XRGB_2101010,
   H.BGRA_1010102, H.ABGR_2101010, H.BGRX_1010102, H.XBGR_2101010, H.YCbCr_420_P010,
   H.YCbCr_420_TP10_UBWC]

/-- A C `switch (source)` over the labelled arms `arms` with a `default:` arm
`dflt`: control goes to the arm whose label equals `source`. -/
def switchOn {β : Type} (source : Int) (dflt : β) : List (Int × β) → β
  | [] => dflt
  | (label, body) :: arms => if source = label then body else switchOn source dflt arms

/-- `HWCLayer::GetSDMFormat(source, flags)`: with `PRIV_FLAGS_UBWC_ALIGNED` set
in `flags` the UBWC switch decides, its `default:` returning `kFormatInvalid`;
otherwise the linear switch decides, its `default:` returning `kFormatInvalid`. -/
def GetSDMFormat (H : HalPixelFormat) (P : PrivFlags) (source : Int) (flags : Nat) :
    LayerBufferFormat :=
  if flagSet flags P.PRIV_FLAGS_UBWC_ALIGNED then
    switchOn source kFormatInvalid (ubwcTable H)
  else
    switchOn source kFormatInvalid (linearTable H)

/-- Pairwise distinct pixel-format codes for evaluating the model on concrete
inputs, patterned on the Android and gralloc headers. -/
def sampleFormats : HalPixelFormat where
  RGBA_8888 := 1
  RGBX_8888 := 2
  RGB_888 := 3
  RGB_565 := 4
  BGRA_8888 := 5
  RGBA_5551 := 6
  RGBA_4444 := 7
  YCbCr_422_SP := 0x10
  YCrCb_420_SP := 0x11
  YCbCr_422_I := 0x14
  YV12 := 0x32315659
  NV12_ENCODEABLE := 0x102
  YCbCr_420_SP := 0x109
  BGRX_8888 := 0x112
  YCrCb_420_SP_VENUS := 0x114
  BGR_565 := 0x115
  RGBA_1010102 := 0x116
  ARGB_2101010 := 0x117
  RGBX_1010102 := 0x118
  XRGB_2101010 := 0x119
  BGRA_1010102 := 0x11A
  ABGR_2101010 := 0x11B
  BGRX_1010102 := 0x11C
  XBGR_2101010 := 0x11D
  YCbCr_420_P010 := 0x11F
  YCbCr_420_SP_VENUS := 0x7FA30C04
  YCbCr_420_SP_VENUS_UBWC := 0x7FA30C06
  YCbCr_420_TP10_UBWC := 0x7FA30C09

/-- Private-handle flag bits used to evaluate the model on concrete inputs. -/
def sampleFlags : PrivFlags where
  PRIV_FLAGS_UBWC_ALIGNED := 0x08000000
  PRIV_FLAGS_SECURE_BUFFER := 0x00000400
  PRIV_FLAGS_SECURE_DISPLAY := 0x01000000
  BUFFER_TYPE_VIDEO := 1

/-! ## Scalar conversions -/

/-- The `UINT32(x)` cast of an integer: reduction modulo 2^32. -/
def UINT32 (x : Int) : Nat := (x % 2 ^ 32).toNat

/-- The `INT32(x)` cast of an unsigned 32-bit value: its two's-complement reading. -/
def INT32 (x : Nat) : Int := if x % 2 ^ 32 < 2 ^ 31 then (x % 2 ^ 32 : Nat) else (x % 2 ^ 32 : Nat) - 2 ^ 32

/-- Subtraction of two `uint32_t` values, which wraps modulo 2^32. -/
def usub32 (a b : Nat) : Nat := (a % 2 ^ 32 + (2 ^ 32 - b % 2 ^ 32)) % 2 ^ 32

/-- The floating-point operations of the target that the layer code calls.  The
code relies on them without defining them, so they are parameters; `F` is the
type of `float` values.  Values converted from integers are never NaN and are
compared with the equality of `F`; where a `float` supplied by the caller is
compared, the comparison is the field `eq`. -/
structure FloatOps (F : Type) where
  /-- conversion of an integer to `float`, the `FLOAT(x)` cast; also gives the
  literals `0.0f`, `90.0f`, `255.0f` -/
  FLOAT : Int → F
  /-- `std::ceil` -/
  ceil : F → F
  /-- `std::floor` -/
  floor : F → F
  /-- `std::round` -/
  round : F → F
  /-- multiplication of two `float` values -/
  mul : F → F → F
  /-- `static_cast<uint8_t>` of a `float` -/
  toUInt8 : F → Nat
  /-- `(uint32_t)` cast of a `float` -/
  toUInt32 : F → Nat
  /-- the comparison `==` of two `float` values, which is false when either is
  NaN; `!=` is its negation -/
  eq : F → F → Bool

/-- A concrete arithmetic for evaluating the model on inputs: binary fixed point
with 8 fractional bits, the integer `r` standing for the number `r / 256`. -/
def fixed8 : FloatOps Int where
  FLOAT := fun n => n * 256
  ceil := fun x => (x + 255) / 256 * 256
  floor := fun x => x / 256 * 256
  round := fun x => if 0 ≤ x then (x + 128) / 256 * 256 else -((-x + 128) / 256 * 256)
  mul := fun x y => x * y / 256
  toUInt8 := fun x => (x / 256).toNat
  toUInt32 := fun x => (x / 256).toNat
  eq := fun x y => decide (x = y)

/-- `HWC2::Error`, the values returned by the layer calls. -/
inductive Error where
  | None
  | BadLayer
  | BadParameter
  | Unsupported
  deriving DecidableEq, Repr

/-- `DisplayError`, the values returned by the metadata helpers. -/
inductive DisplayError where
  | kErrorNone
  | kErrorNotSupported
  deriving DecidableEq, Repr

/-- `LayerBlending`. -/
inductive LayerBlending where
  | kBlendingPremultiplied
  | kBlendingOpaque
  | kBlendingCoverage
  deriving DecidableEq, Repr

/-- `HWC2::Transform`. -/
inductive Transform where
  | None
  | FlipH
  | FlipV
  | Rotate90
  | Rotate180
  | Rotate270
  | FlipHRotate90
  | FlipVRotate90
  deriving DecidableEq, Repr

/-- `HWC2::Composition`; `other` stands for a value of the underlying integer
type that is none of the enumerators. -/
inductive Composition where
  | Invalid
  | Client
  | Device
  | SolidColor
  | Cursor
  | Sideband
  | other (raw : Int)
  deriving DecidableEq, Repr

/-- `LayerComposition`, the composition chosen by the display manager; `other`
stands for every enumerator that hwc_layers.cpp does not name. -/
inductive LayerComposition where
  | kCompositionGPU
  | kCompositionSDE
  | kCompositionHWCursor
  | other (raw : Nat)
  deriving DecidableEq, Repr

/-- `ColorSpace_t` of the buffer metadata; `other` is any value that
hwc_layers.cpp does not name. -/
inductive ColorSpace_t where
  | ITU_R_601
  | ITU_R_601_FR
  | ITU_R_709
  | other (raw : Int)
  deriving DecidableEq, Repr

/-- `IGC_t` of the buffer metadata; `other` is any value that hwc_layers.cpp
does not name. -/
inductive IGC_t where
  | IGC_NotSpecified
  | IGC_sRGB
  | other (raw : Int)
  deriving DecidableEq, Repr

/-- `LayerCSC`. -/
inductive LayerCSC where
  | kCSCLimitedRange601
  | kCSCFullRange601
  | kCSCLimitedRange709
  deriving DecidableEq, Repr

/-- `LayerIGC`. -/
inductive LayerIGC where
  | kIGCNotSpecified
  | kIGCsRGB
  deriving DecidableEq, Repr

/-- `LayerBufferS3DFormat`. -/
inductive LayerBufferS3DFormat where
  | kS3dFormatNone
  | kS3dFormatLeftRight
  | kS3dFormatRightLeft
  | kS3dFormatTopBottom
  deriving DecidableEq, Repr

/-- The `HAL_3D_*` codes used as case labels by `GetS3DFormat`; header
constants, taken as parameters. -/
structure HalS3D where
  HAL_NO_3D : Int
  HAL_3D_SIDE_BY_SIDE_L_R : Int
  HAL_3D_SIDE_BY_SIDE_R_L : Int
  HAL_3D_TOP_BOTTOM : Int

/-- The bits of `geometry_changes_` that the setters of hwc_layers.cpp raise;
the `GeometryChanges` enumeration is declared in the class header, which is not
part of the sources, so the masks are parameters. -/
structure GeometryChanges where
  kBlendMode : Nat
  kDataspace : Nat
  kDisplayFrame : Nat
  kPlaneAlpha : Nat
  kSourceCrop : Nat
  kTransform : Nat
  kZOrder : Nat

/-- Stereo codes used to evaluate the model on concrete inputs. -/
def sampleS3D : HalS3D where
  HAL_NO_3D := 0
  HAL_3D_SIDE_BY_SIDE_L_R := 1
  HAL_3D_SIDE_BY_SIDE_R_L := 2
  HAL_3D_TOP_BOTTOM := 4

/-- Change bits used to evaluate the model on concrete inputs. -/
def sampleGeometry : GeometryChanges where
  kBlendMode := 0x001
  kDataspace := 0x002
  kDisplayFrame := 0x004
  kPlaneAlpha := 0x008
  kSourceCrop := 0x010
  kTransform := 0x020
  kZOrder := 0x040

/-! ## Layer state -/

/-- `hwc_rect_t`: integer rectangle of the display API. -/
structure hwc_rect_t where
  left : Int
  top : Int
  right : Int
  bottom : Int
  deriving DecidableEq, Repr

/-- `LayerRect`: four `float` edges; its `!=` compares the four fields. -/
structure LayerRect (F : Type) where
  left : F
  top : F
  right : F
  bottom : F
  deriving DecidableEq, Repr

/-- `LayerTransform`; its `!=` compares the three fields. -/
structure LayerTransform (F : Type) where
  rotation : F
  flip_horizontal : Bool
  flip_vertical : Bool
  deriving DecidableEq, Repr

/-- The bits of `LayerBuffer::flags` that hwc_layers.cpp writes. -/
structure LayerBufferFlags where
  video : Bool
  secure : Bool
  secure_display : Bool
  interlace : Bool
  deriving DecidableEq, Repr

/-- `LayerBuffer::planes[0]`. -/
structure LayerBufferPlane where
  fd : Int
  offset : Nat
  stride : Nat
  deriving DecidableEq, Repr

/-- `LayerBuffer`, the input buffer descriptor of a layer. -/
structure LayerBuffer where
  width : Nat
  height : Nat
  format : LayerBufferFormat
  csc : LayerCSC
  igc : LayerIGC
  s3d_format : LayerBufferS3DFormat
  flags : LayerBufferFlags
  planes0 : LayerBufferPlane
  acquire_fence_fd : Int
  buffer_id : Nat
  deriving DecidableEq, Repr

/-- `Layer`, the display manager's layer record (`solid_fill` is `flags.solid_fill`). -/
structure Layer (F : Type) where
  input_buffer : LayerBuffer
  blending : LayerBlending
  src_rect : LayerRect F
  dst_rect : LayerRect F
  visible_regions : List (LayerRect F)
  dirty_regions : List (LayerRect F)
  plane_alpha : Nat
  transform : LayerTransform F
  solid_fill : Bool
  frame_rate : Nat
  solid_fill_color : Nat
  deriving DecidableEq, Repr

/-- The data members of `HWCLayer`.  `release_fences_` is the `std::queue`,
front first. -/
structure HWCLayer (F : Type) where
  layer_ : Layer F
  z_ : Nat
  release_fences_ : List Int
  ion_fd_ : Int
  dataspace_ : Int
  needs_validate_ : Bool
  client_requested_ : Composition
  device_selected_ : Composition
  geometry_changes_ : Nat
  deriving DecidableEq, Repr

/-- The fields of `private_handle_t` that hwc_layers.cpp reads; `address` is the
pointer value of the handle and `flags` the bit pattern of its flag word. -/
structure private_handle_t where
  address : Nat
  fd : Int
  width : Int
  height : Int
  format : Int
  flags : Nat
  buffer_type : Int
  offset : Nat
  deriving DecidableEq, Repr

/-- What the `getMetaData` queries of one `SetMetaData` call answer: `none` when
the query returns non-zero, `some v` when it returns 0 and yields `v`.  For
`GET_BUFFER_GEOMETRY` the value is the aligned width and height that the buffer
allocator then computes. -/
structure MetaDataReply where
  buffer_geometry : Option (Int × Int)
  color_space : Option ColorSpace_t
  igc : Option IGC_t
  refresh_rate : Option Nat
  interlaced : Option Int
  linear_format : Option Nat
  s3d_format : Option Nat
  deriving DecidableEq, Repr

/-- What the operating system and the metadata library answer during one
`SetLayerBuffer` call: the descriptor returned by `dup` and the metadata. -/
structure BufferEnv where
  dup_fd : Int
  metadata : MetaDataReply
  deriving DecidableEq, Repr

/-! ## Layer operations -/

/-- `HWCLayer::PushReleaseFence`. -/
def PushReleaseFence {F : Type} (fence : Int) (s : HWCLayer F) : HWCLayer F :=
  { s with release_fences_ := s.release_fences_ ++ [fence] }

/-- `HWCLayer::PopReleaseFence`: the returned fence and the state after. -/
def PopReleaseFence {F : Type} (s : HWCLayer F) : Int × HWCLayer F :=
  match s.release_fences_ with
  | [] => (-1, s)
  | fence :: rest => (fence, { s with release_fences_ := rest })

/-- `HWCLayer::HWCLayer`: the members start from their in-class initialisers
`init` (declared in the class header), the fence queue starts empty, and the
constructor body pushes -1. -/
def HWCLayer.construct {F : Type} (init : HWCLayer F) : HWCLayer F :=
  PushReleaseFence (-1) { init with release_fences_ := [] }

/-- The `while` loop of the destructor: closes the front fence and pops it until
the queue is empty; gives the descriptors passed to `close`, in order, and the
queue left. -/
def closeReleaseFences : List Int → List Int × List Int
  | [] => ([], [])
  | fence :: rest => let r := closeReleaseFences rest; (fence :: r.1, r.2)

/-- `HWCLayer::~HWCLayer`: the descriptors passed to `close`, in order, and the
members as the loop leaves them. -/
def HWCLayer.destroy {F : Type} (s : HWCLayer F) : List Int × HWCLayer F :=
  let r := closeReleaseFences s.release_fences_
  (r.1 ++ [s.ion_fd_], { s with release_fences_ := r.2 })

/-- `HWCLayer::SetRect(const hwc_rect_t &, LayerRect *)`. -/
def SetRect {F : Type} (fp : FloatOps F) (source : hwc_rect_t) : LayerRect F :=
  { left := fp.FLOAT source.left, top := fp.FLOAT source.top,
    right := fp.FLOAT source.right, bottom := fp.FLOAT source.bottom }

/-- The switch of `SetLayerTransform`, starting from the zero-initialised
`LayerTransform`. -/
def layerTransformOf {F : Type} (fp : FloatOps F) : Transform → LayerTransform F
  | Transform.FlipH =>
    { rotation := fp.FLOAT 0, flip_horizontal := true, flip_vertical := false }
  | Transform.FlipV =>
    { rotation := fp.FLOAT 0, flip_horizontal := false, flip_vertical := true }
  | Transform.Rotate90 =>
    { rotation := fp.FLOAT 90, flip_horizontal := false, flip_vertical := false }
  | Transform.Rotate180 =>
    { rotation := fp.FLOAT 0, flip_horizontal := true, flip_vertical := true }
  | Transform.Rotate270 =>
    { rotation := fp.FLOAT 90, flip_horizontal := true, flip_vertical := true }
  | Transform.FlipHRotate90 =>
    { rotation := fp.FLOAT 90, flip_horizontal := true, flip_vertical := false }
  | Transform.FlipVRotate90 =>
    { rotation := fp.FLOAT 90, flip_horizontal := false, flip_vertical := true }
  | Transform.None =>
    { rotation := fp.FLOAT 0, flip_horizontal := false, flip_vertical := false }

/-- `HWCLayer::SetLayerTransform`. -/
def SetLayerTransform {F : Type} [DecidableEq F] (fp : FloatOps F) (G : GeometryChanges)
    (transform : Transform) (s : HWCLayer F) : Error × HWCLayer F :=
  let layer_transform := layerTransformOf fp transform
  if s.layer_.transform ≠ layer_transform then
    (Error.None, { s with geometry_changes_ := s.geometry_changes_ ||| G.kTransform,
                          layer_ := { s.layer_ with transform := layer_transform } })
  else (Error.None, s)

/-- `HWCLayer::SetLayerCompositionType`: the request is stored before the switch
decides the return value. -/
def SetLayerCompositionType {F : Type} (type : Composition) (s : HWCLayer F) :
    Error × HWCLayer F :=
  let s1 := { s with client_requested_ := type }
  match type with
  | Composition.Client => (Error.None, s1)
  | Composition.Device => (Error.None, s1)
  | Composition.SolidColor => (Error.None, s1)
  | Composition.Cursor => (Error.None, s1)
  | Composition.Invalid => (Error.BadParameter, s1)
  | _ => (Error.Unsupported, s1)

/-- `HWCLayer::SetComposition`. -/
def SetComposition {F : Type} (sdm_composition : LayerComposition) (s : HWCLayer F) :
    HWCLayer F :=
  let hwc_composition :=
    match sdm_composition with
    | LayerComposition.kCompositionGPU => Composition.Client
    | LayerComposition.kCompositionHWCursor => Composition.Cursor
    | _ => Composition.Device
  let hwc_composition :=
    if sdm_composition = LayerComposition.kCompositionSDE ∧ s.layer_.solid_fill ≠ false then
      Composition.SolidColor
    else hwc_composition
  { s with device_selected_ := hwc_composition }

/-! ## Buffer metadata -/

/-- `standard_fps` of `RoundToStandardFPS`. -/
def standard_fps : List Nat := [24, 30, 48, 60]

/-- The `for` loop of `RoundToStandardFPS` over the remaining entries of
`standard_fps`: the first entry `s` with `s - frame_rate < 2` in `uint32_t`
arithmetic is returned, and `frame_rate` when the loop runs out. -/
def roundLoop (frame_rate : Nat) : List Nat → Nat
  | [] => frame_rate
  | s :: rest => if usub32 s frame_rate < 2 then s else roundLoop frame_rate rest

/-- The local `frame_rate` of `RoundToStandardFPS`: `(uint32_t)(fps)`. -/
def frameRateOf {F : Type} (fp : FloatOps F) (fps : F) : Nat := fp.toUInt32 fps % 2 ^ 32

/-- `HWCLayer::RoundToStandardFPS(float fps)`. -/
def RoundToStandardFPS {F : Type} (fp : FloatOps F) (fps : F) : Nat :=
  roundLoop (frameRateOf fp fps) standard_fps

/-- The distance between two frame rates. -/
def rateDistance (a b : Nat) : Nat := if a ≤ b then b - a else a - b

/-- The rate `s` is a standard rate and no standard rate is nearer to `r`. -/
def isNearestStandard (r s : Nat) : Prop :=
  s ∈ standard_fps ∧ ∀ t ∈ standard_fps, rateDistance r s ≤ rateDistance r t

/-- `HWCLayer::GetS3DFormat`; the `default:` arm keeps `kS3dFormatNone`. -/
def GetS3DFormat (S : HalS3D) (s3d_format : Nat) : LayerBufferS3DFormat :=
  switchOn (s3d_format : Int) LayerBufferS3DFormat.kS3dFormatNone
    [ (S.HAL_NO_3D, LayerBufferS3DFormat.kS3dFormatNone),
      (S.HAL_3D_SIDE_BY_SIDE_L_R, LayerBufferS3DFormat.kS3dFormatLeftRight),
      (S.HAL_3D_SIDE_BY_SIDE_R_L, LayerBufferS3DFormat.kS3dFormatRightLeft),
      (S.HAL_3D_TOP_BOTTOM, LayerBufferS3DFormat.kS3dFormatTopBottom) ]

/-- `HWCLayer::SetCSC`: the error code and the value of `*target` after the
call, `target` being its value before. -/
def SetCSC (source : ColorSpace_t) (target : LayerCSC) : DisplayError × LayerCSC :=
  match source with
  | ColorSpace_t.ITU_R_601 => (DisplayError.kErrorNone, LayerCSC.kCSCLimitedRange601)
  | ColorSpace_t.ITU_R_601_FR => (DisplayError.kErrorNone, LayerCSC.kCSCFullRange601)
  | ColorSpace_t.ITU_R_709 => (DisplayError.kErrorNone, LayerCSC.kCSCLimitedRange709)
  | _ => (DisplayError.kErrorNotSupported, target)

/-- `HWCLayer::SetIGC`: the error code and the value of `*target` after the
call, `target` being its value before. -/
def SetIGC (source : IGC_t) (target : LayerIGC) : DisplayError × LayerIGC :=
  match source with
  | IGC_t.IGC_NotSpecified => (DisplayError.kErrorNone, LayerIGC.kIGCNotSpecified)
  | IGC_t.IGC_sRGB => (DisplayError.kErrorNone, LayerIGC.kIGCsRGB)
  | _ => (DisplayError.kErrorNotSupported, target)

/-- The part of `SetMetaData` after the gamma query: refresh rate, interlace,
linear format and stereo format; it cannot fail. -/
def SetMetaData.tail {F : Type} (fp : FloatOps F) (H : HalPixelFormat) (P : PrivFlags)
    (S : HalS3D) (m : MetaDataReply) (layer : Layer F) : Layer F :=
  let layer :=
    match m.refresh_rate with
    | some fps => { layer with frame_rate := RoundToStandardFPS fp (fp.FLOAT (fps : Int)) }
    | none => layer
  let lb := layer.input_buffer
  let lb :=
    match m.interlaced with
    | some interlaced => { lb with flags := { lb.flags with interlace := decide (interlaced ≠ 0) } }
    | none => lb
  let lb :=
    match m.linear_format with
    | some linear_format => { lb with format := GetSDMFormat H P (INT32 linear_format) 0 }
    | none => lb
  let lb :=
    match m.s3d_format with
    | some s3d => { lb with s3d_format := GetS3DFormat S s3d }
    | none => lb
  { layer with input_buffer := lb }

/-- `HWCLayer::SetMetaData`: the error code and the layer as the call leaves it
(also when it returns early). -/
def SetMetaData {F : Type} (fp : FloatOps F) (H : HalPixelFormat) (P : PrivFlags)
    (S : HalS3D) (m : MetaDataReply) (layer : Layer F) : DisplayError × Layer F :=
  let lb := layer.input_buffer
  let lb :=
    match m.buffer_geometry with
    | some (sliceWidth, sliceHeight) =>
      { lb with width := UINT32 sliceWidth, height := UINT32 sliceHeight }
    | none => lb
  let csc :=
    match m.color_space with
    | some csc => SetCSC csc lb.csc
    | none => (DisplayError.kErrorNone, lb.csc)
  let lb := { lb with csc := csc.2 }
  if csc.1 ≠ DisplayError.kErrorNone then
    (DisplayError.kErrorNotSupported, { layer with input_buffer := lb })
  else
    let igc :=
      match m.igc with
      | some igc => SetIGC igc lb.igc
      | none => (DisplayError.kErrorNone, lb.igc)
    let lb := { lb with igc := igc.2 }
    if igc.1 ≠ DisplayError.kErrorNone then
      (DisplayError.kErrorNotSupported, { layer with input_buffer := lb })
    else
      (DisplayError.kErrorNone, SetMetaData.tail fp H P S m { layer with input_buffer := lb })

/-- `HWCLayer::SetLayerBuffer`: the error code, the descriptors passed to
`close` during the call, and the members after it.  `buffer = none` is the null
handle. -/
def SetLayerBuffer {F : Type} (fp : FloatOps F) (H : HalPixelFormat) (P : PrivFlags)
    (S : HalS3D) (buffer : Option private_handle_t) (acquire_fence : Int) (env : BufferEnv)
    (s : HWCLayer F) : Error × List Int × HWCLayer F :=
  match buffer with
  | none => (Error.BadParameter, [], s)
  | some handle =>
    if acquire_fence = 0 then (Error.BadParameter, [], s)
    else if handle.fd < 0 then (Error.BadParameter, [], s)
    else
      let closed := [s.ion_fd_]
      let ion_fd := env.dup_fd
      let lb := s.layer_.input_buffer
      let lb := { lb with width := UINT32 handle.width, height := UINT32 handle.height,
                          format := GetSDMFormat H P handle.format handle.flags }
      let r := SetMetaData fp H P S env.metadata { s.layer_ with input_buffer := lb }
      if r.1 ≠ DisplayError.kErrorNone then
        (Error.BadLayer, closed, { s with ion_fd_ := ion_fd, layer_ := r.2 })
      else
        let lb := r.2.input_buffer
        let lb :=
          { lb with
            flags := { lb.flags with
                       video := decide (handle.buffer_type = P.BUFFER_TYPE_VIDEO),
                       secure := flagSet handle.flags P.PRIV_FLAGS_SECURE_BUFFER,
                       secure_display := flagSet handle.flags P.PRIV_FLAGS_SECURE_DISPLAY },
            planes0 := { fd := ion_fd, offset := handle.offset, stride := UINT32 handle.width },
            acquire_fence_fd := acquire_fence,
            buffer_id := handle.address }
        (Error.None, closed, { s with ion_fd_ := ion_fd, layer_ := { r.2 with input_buffer := lb } })

/-! ## Call sequences -/

/-- A call on the release-fence queue of a layer. -/
inductive FenceCall where
  | push (fence : Int)
  | pop
  deriving DecidableEq, Repr

/-- What a `PopReleaseFence` call in a sequence did: `starved` tells that the
queue was empty when the call was made, `fence` is the value returned. -/
structure PopRecord where
  starved : Bool
  fence : Int
  deriving DecidableEq, Repr

/-- Runs a sequence of `PushReleaseFence` / `PopReleaseFence` calls on a layer:
the record of every pop, in call order, and the layer after the last call. -/
def runFenceCalls {F : Type} : List FenceCall → HWCLayer F → List PopRecord × HWCLayer F
  | [], s => ([], s)
  | FenceCall.push fence :: calls, s => runFenceCalls calls (PushReleaseFence fence s)
  | FenceCall.pop :: calls, s =>
    let r := PopReleaseFence s
    let rest := runFenceCalls calls r.2
    ({ starved := s.release_fences_.isEmpty, fence := r.1 } :: rest.1, rest.2)

/-- The fences pushed by a sequence of calls, in call order. -/
def pushedFences : List FenceCall → List Int
  | [] => []
  | FenceCall.push fence :: calls => fence :: pushedFences calls
  | FenceCall.pop :: calls => pushedFences calls

/-- The number of `PopReleaseFence` calls in a sequence. -/
def popCount : List FenceCall → Nat
  | [] => 0
  | FenceCall.push _ :: calls => popCount calls
  | FenceCall.pop :: calls => popCount calls + 1

/-- One `SetLayerBuffer` call of a sequence: its arguments and what the
environment answers during it. -/
structure BufferCall where
  handle : private_handle_t
  acquire_fence : Int
  env : BufferEnv
  deriving DecidableEq, Repr

/-- Runs a sequence of `SetLayerBuffer` calls: the error codes, all descriptors
passed to `close`, in order, and the layer after the last call. -/
def runBufferCalls {F : Type} (fp : FloatOps F) (H : HalPixelFormat) (P : PrivFlags)
    (S : HalS3D) : List BufferCall → HWCLayer F → List Error × List Int × HWCLayer F
  | [], s => ([], [], s)
  | c :: calls, s =>
    let r := SetLayerBuffer fp H P S (some c.handle) c.acquire_fence c.env s
    let rest := runBufferCalls fp H P S calls r.2.2
    (r.1 :: rest.1, r.2.1 ++ rest.2.1, rest.2.2)

/-- A sequence of `SetLayerBuffer` calls followed by the destruction of the
layer: every descriptor passed to `close`, in order. -/
def closedByLifetime {F : Type} (fp : FloatOps F) (H : HalPixelFormat) (P : PrivFlags)
    (S : HalS3D) (calls : List BufferCall) (s : HWCLayer F) : List Int :=
  let r := runBufferCalls fp H P S calls s
  r.2.1 ++ (HWCLayer.destroy r.2.2).1

/-- In-class initialisers used to evaluate the model on concrete inputs, over
the fixed-point arithmetic `fixed8`. -/
def sampleInit : HWCLayer Int where
  layer_ :=
    { input_buffer :=
        { width := 0, height := 0, format := LayerBufferFormat.kFormatRGBA8888,
          csc := LayerCSC.kCSCLimitedRange601, igc := LayerIGC.kIGCNotSpecified,
          s3d_format := LayerBufferS3DFormat.kS3dFormatNone,
          flags := { video := false, secure := false, secure_display := false,
                     interlace := false },
          planes0 := { fd := -1, offset := 0, stride := 0 },
          acquire_fence_fd := -1, buffer_id := 0 },
      blending := LayerBlending.kBlendingPremultiplied,
      src_rect := { left := 0, top := 0, right := 0, bottom := 0 },
      dst_rect := { left := 0, top := 0, right := 0, bottom := 0 },
      visible_regions := [], dirty_regions := [],
      plane_alpha := 255,
      transform := { rotation := 0, flip_horizontal := false, flip_vertical := false },
      solid_fill := false, frame_rate := 0, solid_fill_color := 0 }
  z_ := 0
  release_fences_ := []
  ion_fd_ := -1
  dataspace_ := 0
  needs_validate_ := true
  client_requested_ := Composition.Device
  device_selected_ := Composition.Device
  geometry_changes_ := 0

/-- A newly constructed layer, for evaluating the model on concrete inputs. -/
def sampleLayer : HWCLayer Int := HWCLayer.construct sampleInit

/-- The case labels of the switch that `GetSDMFormat` runs for a flag word. -/
def formatLabels (H : HalPixelFormat) (P : PrivFlags) (flags : Nat) : List Int :=
  if flagSet flags P.PRIV_FLAGS_UBWC_ALIGNED then (ubwcTable H).map Prod.fst
  else (linearTable H).map Prod.fst

/-- The case labels of the switch of `GetS3DFormat`. -/
def s3dLabels (S : HalS3D) : List Int :=
  [S.HAL_NO_3D, S.HAL_3D_SIDE_BY_SIDE_L_R, S.HAL_3D_SIDE_BY_SIDE_R_L, S.HAL_3D_TOP_BOTTOM]

/-- A buffer handle for evaluating the model: a 1920x1080 linear RGBA_8888
buffer with descriptor 5. -/
def sampleHandle : private_handle_t where
  address := 0x7000
  fd := 5
  width := 1920
  height := 1080
  format := 1
  flags := 0
  buffer_type := 0
  offset := 0

/-- Metadata in which every query fails. -/
def noMetaData : MetaDataReply where
  buffer_geometry := none
  color_space := none
  igc := none
  refresh_rate := none
  interlaced := none
  linear_format := none
  s3d_format := none

/-- An environment for evaluating the model: `dup` returns 9 and no metadata
query succeeds. -/
def sampleEnv : BufferEnv where
  dup_fd := 9
  metadata := noMetaData

/-- Every pop of the sequence had something to take, by counting alone: after each
initial part of the calls, the pops made are at most one more than the fences
pushed (the one being the -1 the constructor put in the queue).  For the `j`-th
pop this says that at least `j - 1` fences were pushed before it. -/
def EveryPopFed (calls : List FenceCall) : Prop :=
  ∀ n : Nat, n ≤ calls.length →
    popCount (calls.take n) ≤ (pushedFences (calls.take n)).length + 1

/-- The fences that the pops of a run took out of the queue, in order: the values
returned by the pops that did not find the queue empty. -/
def dequeued (records : List PopRecord) : List Int :=
  (records.filter (fun r => !r.starved)).map PopRecord.fence

/-- The ion descriptors that a sequence of `SetLayerBuffer` calls closes, read off
the arguments alone: each call that passes validation closes the descriptor held
so far and holds the one `dup` returns.  Gives the closed descriptors, in order,
and the descriptor held at the end; `ion` is the descriptor held at the start. -/
def ionClosures : List BufferCall → Int → List Int × Int
  | [], ion => ([], ion)
  | c :: calls, ion =>
    if c.acquire_fence = 0 ∨ c.handle.fd < 0 then ionClosures calls ion
    else let r := ionClosures calls c.env.dup_fd; (ion :: r.1, r.2)

/-! ## Regions and colors -/

/-- `hwc_region_t`: `rects` holds the `numRects` rectangles of the region. -/
structure hwc_region_t where
  rects : List hwc_rect_t
  deriving DecidableEq, Repr

/-- The field `numRects` of a region. -/
def hwc_region_t.numRects (region : hwc_region_t) : Nat := region.rects.length

/-- `hwc_color_t`: four `uint8_t` components. -/
structure hwc_color_t where
  r : Nat
  g : Nat
  b : Nat
  a : Nat
  deriving DecidableEq, Repr

/-- The loops of `SetLayerVisibleRegion` and `SetLayerSurfaceDamage` that refill
a region list: every rectangle is converted with `SetRect` and pushed back. -/
def convertRegion {F : Type} (fp : FloatOps F) (region : hwc_region_t) : List (LayerRect F) :=
  region.rects.map (SetRect fp)

/-- `HWCLayer::SetLayerVisibleRegion`. -/
def SetLayerVisibleRegion {F : Type} (fp : FloatOps F) (visible : hwc_region_t)
    (s : HWCLayer F) : Error × HWCLayer F :=
  (Error.None, { s with layer_ := { s.layer_ with visible_regions := convertRegion fp visible } })

/-- The comparison loop of `SetLayerSurfaceDamage` over two lists of equal
length: true when some converted damage rectangle differs from the stored
rectangle at the same index (the loop then breaks). -/
def damageDiffers {F : Type} [DecidableEq F] : List (LayerRect F) → List (LayerRect F) → Bool
  | damage_rect :: damage, stored :: dirty =>
    if damage_rect ≠ stored then true else damageDiffers damage dirty
  | _, _ => false

/-- `HWCLayer::SetLayerSurfaceDamage`. -/
def SetLayerSurfaceDamage {F : Type} [DecidableEq F] (fp : FloatOps F) (damage : hwc_region_t)
    (s : HWCLayer F) : Error × HWCLayer F :=
  let needs_validate :=
    if s.layer_.dirty_regions.length ≠ damage.numRects then true
    else if damageDiffers (convertRegion fp damage) s.layer_.dirty_regions then true
    else s.needs_validate_
  (Error.None, { s with needs_validate_ := needs_validate,
                        layer_ := { s.layer_ with dirty_regions := convertRegion fp damage } })

/-- `HWCLayer::GetUint32Color`: the four shifts and the bitwise or, in `uint32_t`. -/
def GetUint32Color (source : hwc_color_t) : Nat :=
  let a := (source.a % 2 ^ 32) <<< 24 % 2 ^ 32
  let r := (source.r % 2 ^ 32) <<< 16 % 2 ^ 32
  let g := (source.g % 2 ^ 32) <<< 8 % 2 ^ 32
  let b := source.b % 2 ^ 32
  a ||| r ||| g ||| b

/-- `HWCLayer::SetLayerColor`. -/
def SetLayerColor {F : Type} (color : hwc_color_t) (s : HWCLayer F) : Error × HWCLayer F :=
  (Error.None,
   { s with layer_ := { s.layer_ with
                        solid_fill_color := GetUint32Color color,
                        input_buffer := { s.layer_.input_buffer with
                                          format := LayerBufferFormat.kFormatARGB8888 } } })

/-- The field-wise union of two transforms: a flip is set when either sets it,
and the rotation is the one that is not the zero rotation. -/
def LayerTransform.union {F : Type} [DecidableEq F] (fp : FloatOps F)
    (x y : LayerTransform F) : LayerTransform F :=
  { rotation := if x.rotation = fp.FLOAT 0 then y.rotation else x.rotation,
    flip_horizontal := x.flip_horizontal || y.flip_horizontal,
    flip_vertical := x.flip_vertical || y.flip_vertical }

end sdm

/-!
# Overlay memory handle (`overlay::OvMem`, overlayMem.h)

The handle binds an allocation made through the gralloc allocator to a
descriptor and a base address, and toggles its protection through the display
controller.  What the allocator and the display controller answer is an
argument of each operation.
-/

namespace overlay

/-- `SIZE_1M` of overlayMem.h. -/
def SIZE_1M : Nat := 0x00100000

/-- Constants and run-time values that overlayMem.h takes from the platform:
`MAP_FAILED` of sys/mman.h, the result of `getpagesize()`, and the gralloc usage
bits. -/
structure Platform where
  MAP_FAILED : Int
  pagesize : Nat
  GRALLOC_USAGE_PRIVATE_IOMMU_HEAP : Nat
  GRALLOC_USAGE_PRIVATE_MM_HEAP : Nat
  GRALLOC_USAGE_PROTECTED : Nat
  GRALLOC_USAGE_PRIVATE_UNCACHED : Nat

/-- Modelled from the spec: `utils::align(value, a)` of overlayUtils.h, which is
not part of the sources, rounds `value` up to a multiple of `a` ("1 MB aligned",
"page aligned"). -/
def align (value a : Nat) : Nat := (value + (a - 1)) / a * a

/-- The data members of `OvMem` (the allocator pointer `mAlloc` apart). -/
structure OvMem where
  mFd : Int
  mBaseAddr : Int
  mAllocType : Int
  mBufSz : Nat
  mNumBuffers : Nat
  mBufSzAligned : Nat
  mSecured : Bool
  deriving DecidableEq, Repr

/-- The `alloc_data` that `open` hands to the allocator, with the usage flags. -/
structure AllocRequest where
  base : Int
  fd : Int
  offset : Nat
  size : Nat
  align : Nat
  uncached : Bool
  allocFlags : Nat
  deriving DecidableEq, Repr

/-- What a successful `allocate` writes into the `alloc_data`. -/
structure AllocReply where
  fd : Int
  base : Int
  allocType : Int
  deriving DecidableEq, Repr

/-- What happens inside one `setSecure` call: the framebuffer device cannot be
opened, the display controller rejects the secure call, or it accepts it. -/
inductive SecureOutcome where
  | devOpenFailed
  | rejected
  | accepted
  deriving DecidableEq, Repr

/-- `OvMem::OvMem`.  The constructor does not assign `mBufSzAligned`; `junk` is
the value the member happens to hold. -/
def OvMem.construct (P : Platform) (junk : Nat) : OvMem :=
  { mFd := -1, mBaseAddr := P.MAP_FAILED, mAllocType := 0, mBufSz := 0, mNumBuffers := 0,
    mBufSzAligned := junk, mSecured := false }

/-- `OvMem::valid`. -/
def OvMem.valid (P : Platform) (m : OvMem) : Bool :=
  (m.mFd != -1) && (m.mBaseAddr != P.MAP_FAILED)

/-- `OvMem::getFD`. -/
def OvMem.getFD (m : OvMem) : Int := m.mFd

/-- `OvMem::addr`. -/
def OvMem.addr (m : OvMem) : Int := m.mBaseAddr

/-- `OvMem::bufSz`. -/
def OvMem.bufSz (m : OvMem) : Nat := m.mBufSz

/-- `OvMem::numBufs`. -/
def OvMem.numBufs (m : OvMem) : Nat := m.mNumBuffers

/-- `OvMem::setSecure(enable)`: the returned flag and the members after. -/
def OvMem.setSecure (enable : Bool) (outcome : SecureOutcome) (m : OvMem) : Bool × OvMem :=
  match outcome with
  | SecureOutcome.devOpenFailed => (false, m)
  | SecureOutcome.rejected => (false, { m with mSecured := false })
  | SecureOutcome.accepted => (true, { m with mSecured := enable })

/-- The part of `OvMem::open` before the call of the allocator: the members as
assigned so far and the request handed to `allocate`.  `numbufs` and `bufSz`
are `uint32_t`; the aligned size and the product are stored in 32 bits. -/
def OvMem.openRequest (P : Platform) (numbufs bufSz : Nat) (isSecure : Bool) (m : OvMem) :
    OvMem × AllocRequest :=
  let m := { m with mBufSz := bufSz }
  let allocFlags := if isSecure then
      P.GRALLOC_USAGE_PRIVATE_MM_HEAP ||| P.GRALLOC_USAGE_PROTECTED
    else P.GRALLOC_USAGE_PRIVATE_IOMMU_HEAP
  let m := if isSecure then { m with mBufSzAligned := align bufSz SIZE_1M % 2 ^ 32 }
    else { m with mBufSzAligned := bufSz }
  let data_align := if isSecure then SIZE_1M else P.pagesize
  let allocFlags := allocFlags ||| P.GRALLOC_USAGE_PRIVATE_UNCACHED
  let m := { m with mNumBuffers := numbufs }
  (m, { base := 0, fd := -1, offset := 0,
        size := m.mBufSzAligned * m.mNumBuffers % 2 ^ 32,
        align := data_align, uncached := true, allocFlags := allocFlags })

/-- `OvMem::open`: the returned flag and the members after.  `alloc` is the
answer of the allocator to the request, `none` when it reports an error, and
`secure` what happens in the `setSecure(true)` call of a secure open. -/
def OvMem.open (P : Platform) (numbufs bufSz : Nat) (isSecure : Bool)
    (alloc : Option AllocReply) (secure : SecureOutcome) (m : OvMem) : Bool × OvMem :=
  let m := (OvMem.openRequest P numbufs bufSz isSecure m).1
  match alloc with
  | none => (false, m)
  | some data =>
    let m := { m with mFd := data.fd, mBaseAddr := data.base, mAllocType := data.allocType }
    let m := if isSecure then (OvMem.setSecure true secure m).2 else m
    (true, m)

/-- `OvMem::close`: the returned flag and the members after.  `secure` is what
happens in the `setSecure(false)` call made when the handle is secured, and
`free_ret` the value returned by `free_buffer`. -/
def OvMem.close (P : Platform) (secure : SecureOutcome) (free_ret : Int) (m : OvMem) :
    Bool × OvMem :=
  if !OvMem.valid P m then (true, m)
  else
    let m := if m.mSecured then (OvMem.setSecure false secure m).2 else m
    if free_ret ≠ 0 then (false, m)
    else
      (true, { m with mFd := -1, mBaseAddr := P.MAP_FAILED, mAllocType := 0, mBufSz := 0,
                      mBufSzAligned := 0, mNumBuffers := 0 })

/-- A call on an overlay memory handle together with what the allocator and the
display controller answer during it. -/
inductive OvCall where
  | open (numbufs bufSz : Nat) (isSecure : Bool) (alloc : Option AllocReply)
      (secure : SecureOutcome)
  | close (secure : SecureOutcome) (free_ret : Int)
  | setSecure (enable : Bool) (secure : SecureOutcome)
  deriving DecidableEq, Repr

/-- The members after one call. -/
def stepCall (P : Platform) (c : OvCall) (m : OvMem) : OvMem :=
  match c with
  | OvCall.open numbufs bufSz isSecure alloc secure =>
    (OvMem.open P numbufs bufSz isSecure alloc secure m).2
  | OvCall.close secure free_ret => (OvMem.close P secure free_ret m).2
  | OvCall.setSecure enable secure => (OvMem.setSecure enable secure m).2

/-- The members after a sequence of calls. -/
def runCalls (P : Platform) : List OvCall → OvMem → OvMem
  | [], m => m
  | c :: calls, m => runCalls P calls (stepCall P c m)

/-- A sequence of calls in which the platform keeps its side of the contract:
a successful allocation yields a descriptor other than -1 and an address other
than `MAP_FAILED`, the display controller accepts `setSecure(true)` from the
client only on a valid handle, and the framebuffer device can be opened
whenever `close` has to unsecure the buffer it frees. -/
def Cooperative (P : Platform) : List OvCall → OvMem → Prop
  | [], _ => True
  | c :: calls, m =>
    (match c with
     | OvCall.open _ _ _ alloc _ =>
       ∀ data, alloc = some data → data.fd ≠ -1 ∧ data.base ≠ P.MAP_FAILED
     | OvCall.close secure free_ret =>
       ¬ (m.mSecured = true ∧ secure = SecureOutcome.devOpenFailed ∧ free_ret = 0)
     | OvCall.setSecure enable secure =>
       enable = true → secure = SecureOutcome.accepted → OvMem.valid P m = true) ∧
    Cooperative P calls (stepCall P c m)

/-- Platform values for evaluating the model on concrete inputs. -/
def samplePlatform : Platform where
  MAP_FAILED := -1
  pagesize := 4096
  GRALLOC_USAGE_PRIVATE_IOMMU_HEAP := 0x02000000
  GRALLOC_USAGE_PRIVATE_MM_HEAP := 0x04000000
  GRALLOC_USAGE_PROTECTED := 0x00004000
  GRALLOC_USAGE_PRIVATE_UNCACHED := 0x10000000

/-- An allocator answer for evaluating the model: descriptor 12, address
0x40000000. -/
def sampleReply : AllocReply where
  fd := 12
  base := 0x40000000
  allocType := 1

/-- The arguments of the `free_buffer` call of `close`, with the allocation
kind whose allocator is asked. -/
structure FreeRequest where
  allocType : Int
  base : Int
  size : Nat
  offset : Nat
  fd : Int
  deriving DecidableEq, Repr

/-- The `free_buffer` call that `OvMem::close` makes: none on a handle that is
not valid, where `close` returns before it; otherwise the members as they are
after the `setSecure(false)` call of a secured handle, the size being the 32-bit
product of the aligned size and the buffer count. -/
def OvMem.closeFrees (P : Platform) (secure : SecureOutcome) (m : OvMem) : Option FreeRequest :=
  if !OvMem.valid P m then none
  else
    let m := if m.mSecured then (OvMem.setSecure false secure m).2 else m
    some { allocType := m.mAllocType, base := m.mBaseAddr,
           size := m.mBufSzAligned * m.mNumBuffers % 2 ^ 32, offset := 0, fd := m.mFd }

/-- The allocation a handle holds, as the history of calls tells it: what the
allocator answered to the `open` that created it, the total size that `open`
requested, the total size requested by the most recent `open` call (that one or
a later one that failed), and whether an `open` has failed since. -/
structure LiveAllocation where
  reply : AllocReply
  requested : Nat
  lastRequested : Nat
  failedSince : Bool
  deriving DecidableEq, Repr

/-- The allocation held after one call, read off the call and the members
before it: a successful `open` creates one, a failed `open` keeps the one held,
a `close` on a valid handle whose buffer the allocator frees ends it, and any
other call leaves it. -/
def trackCall (P : Platform) (c : OvCall) (m : OvMem) (live : Option LiveAllocation) :
    Option LiveAllocation :=
  match c with
  | OvCall.open numbufs bufSz isSecure alloc _ =>
    let size := (OvMem.openRequest P numbufs bufSz isSecure m).2.size
    match alloc with
    | some data =>
      some { reply := data, requested := size, lastRequested := size, failedSince := false }
    | none => live.map (fun l => { l with lastRequested := size, failedSince := true })
  | OvCall.close _ free_ret =>
    if OvMem.valid P m && decide (free_ret = 0) then none else live
  | OvCall.setSecure _ _ => live

/-- The allocation held after a sequence of calls. -/
def liveAfter (P : Platform) :
    List OvCall → OvMem → Option LiveAllocation → Option LiveAllocation
  | [], _, live => live
  | c :: calls, m, live => liveAfter P calls (stepCall P c m) (trackCall P c m live)

/-- What the members and the allocation held have to do with each other: with
no allocation held the descriptor is -1; with one held, the descriptor, the
address and the kind are those its `open` got, the 32-bit product of the aligned
size and the count is the size requested by the most recent `open`, and that is
the size its own `open` requested unless an `open` has failed since. -/
def Tracked (m : OvMem) (live : Option LiveAllocation) : Prop :=
  (live = none → m.mFd = -1) ∧
  (∀ l, live = some l →
    m.mFd = l.reply.fd ∧ m.mBaseAddr = l.reply.base ∧ m.mAllocType = l.reply.allocType ∧
    m.mBufSzAligned * m.mNumBuffers % 2 ^ 32 = l.lastRequested ∧
    (l.failedSince = false → l.lastRequested = l.requested))

end overlay

/-! ## Theorems -/

namespace sdm

open LayerBufferFormat

/-- A switch over pairwise distinct labels runs the arm of the label it is given. -/
theorem switchOn_mem {β : Type} (dflt : β) :
    ∀ (arms : List (Int × β)), (arms.map Prod.fst).Nodup →
      ∀ e ∈ arms, switchOn e.1 dflt arms = e.2
  | [], _, e, he => by simp at he
  | (l, b) :: arms, hnd, e, he => by
    simp only [List.map_cons, List.nodup_cons] at hnd
    simp only [List.mem_cons] at he
    rcases he with rfl | he
    · simp [switchOn]
    · have hne : e.1 ≠ l := by
        intro h
        apply hnd.1
        rw [← h]
        exact List.mem_map_of_mem Prod.fst he
      simp [switchOn, hne, switchOn_mem dflt arms hnd.2 e he]

/-- A switch given a value that is none of its labels runs the default arm. -/
theorem switchOn_not_mem {β : Type} (source : Int) (dflt : β) :
    ∀ (arms : List (Int × β)), source ∉ arms.map Prod.fst → switchOn source dflt arms = dflt
  | [], _ => rfl
  | (l, b) :: arms, h => by
    simp only [List.map_cons, List.mem_cons, not_or] at h
    simp [switchOn, h.1, switchOn_not_mem source dflt arms h.2]

/-- A switch returns its default or the body of one of its arms. -/
theorem switchOn_cases {β : Type} (source : Int) (dflt : β) :
    ∀ (arms : List (Int × β)),
      switchOn source dflt arms = dflt ∨ switchOn source dflt arms ∈ arms.map Prod.snd
  | [] => Or.inl rfl
  | (l, b) :: arms => by
    by_cases h : source = l
    · right; simp [switchOn, h]
    · rcases switchOn_cases source dflt arms with h' | h'
      · left; simp [switchOn, h, h']
      · right; simp only [switchOn, h, if_false, List.map_cons, List.mem_cons]; exact Or.inr h'

/-- For a one-bit mask the C test `flags & mask` reads that bit of the flag word. -/
theorem flagSet_two_pow (flags k : Nat) : flagSet flags (2 ^ k) = flags.testBit k := by
  unfold flagSet
  rw [Nat.and_two_pow]
  cases h : flags.testBit k <;> simp

/-- C1, as stated, fails: with the UBWC_ALIGNED bit clear, the code 3 (RGB_888 of the
sample codes) is none of the eight codes the claim lists, yet `GetSDMFormat` returns
`kFormatRGB888` for it, not `kFormatInvalid`. -/
theorem GetSDMFormat_linear_not_invalid :
    flagSet 0 sampleFlags.PRIV_FLAGS_UBWC_ALIGNED = false ∧
    sampleFormats.RGB_888 = 3 ∧
    (3 : Int) ∉ ubwcCodes sampleFormats ∧
    GetSDMFormat sampleFormats sampleFlags 3 0 = kFormatRGB888 ∧
    GetSDMFormat sampleFormats sampleFlags 3 0 ≠ kFormatInvalid := by
  refine ⟨by decide, rfl, by decide, by decide, by decide⟩

/-- C1, amended: `GetSDMFormat` is the fixed table.  With the UBWC_ALIGNED test of the
flag word true, each of the eight listed codes gives its Ubwc format, every other code
gives `kFormatInvalid`, and no result is an uncompressed format; with the test false,
each of the twenty-eight codes of the linear switch gives the format written beside it
here and every other code gives `kFormatInvalid`; two flag words that agree on the test
give the same result, and for a one-bit mask the test is that bit of the flag word. -/
theorem GetSDMFormat_table (H : HalPixelFormat) (P : PrivFlags)
    (hub : (ubwcCodes H).Nodup) (hlin : (linearCodes H).Nodup) (flags : Nat) :
    (flagSet flags P.PRIV_FLAGS_UBWC_ALIGNED = true →
      GetSDMFormat H P H.RGBA_8888 flags = kFormatRGBA8888Ubwc ∧
      GetSDMFormat H P H.RGBX_8888 flags = kFormatRGBX8888Ubwc ∧
      GetSDMFormat H P H.BGR_565 flags = kFormatBGR565Ubwc ∧
      GetSDMFormat H P H.YCbCr_420_SP_VENUS flags = kFormatYCbCr420SPVenusUbwc ∧
      GetSDMFormat H P H.YCbCr_420_SP_VENUS_UBWC flags = kFormatYCbCr420SPVenusUbwc ∧
      GetSDMFormat H P H.NV12_ENCODEABLE flags = kFormatYCbCr420SPVenusUbwc ∧
      GetSDMFormat H P H.RGBA_1010102 flags = kFormatRGBA1010102Ubwc ∧
      GetSDMFormat H P H.RGBX_1010102 flags = kFormatRGBX1010102Ubwc ∧
      (∀ f : Int, f ∉ [H.RGBA_8888, H.RGBX_8888, H.BGR_565, H.YCbCr_420_SP_VENUS,
            H.YCbCr_420_SP_VENUS_UBWC, H.NV12_ENCODEABLE, H.RGBA_1010102, H.RGBX_1010102] →
          GetSDMFormat H P f flags = kFormatInvalid) ∧
      (∀ f : Int, GetSDMFormat H P f flags = kFormatInvalid ∨
          (GetSDMFormat H P f flags).isUbwc = true)) ∧
    (flagSet flags P.PRIV_FLAGS_UBWC_ALIGNED = false →
      GetSDMFormat H P H.RGBA_8888 flags = kFormatRGBA8888 ∧
      GetSDMFormat H P H.RGBA_5551 flags = kFormatRGBA5551 ∧
      GetSDMFormat H P H.RGBA_4444 flags = kFormatRGBA4444 ∧
      GetSDMFormat H P H.BGRA_8888 flags = kFormatBGRA8888 ∧
      GetSDMFormat H P H.RGBX_8888 flags = kFormatRGBX8888 ∧
      GetSDMFormat H P H.BGRX_8888 flags = kFormatBGRX8888 ∧
      GetSDMFormat H P H.RGB_888 flags = kFormatRGB888 ∧
      GetSDMFormat H P H.RGB_565 flags = kFormatRGB565 ∧
      GetSDMFormat H P H.BGR_565 flags = kFormatBGR565 ∧
      GetSDMFormat H P H.NV12_ENCODEABLE flags = kFormatYCbCr420SemiPlanarVenus ∧
      GetSDMFormat H P H.YCbCr_420_SP_VENUS flags = kFormatYCbCr420SemiPlanarVenus ∧
      GetSDMFormat H P H.YCrCb_420_SP_VENUS flags = kFormatYCrCb420SemiPlanarVenus ∧
      GetSDMFormat H P H.YCbCr_420_SP_VENUS_UBWC flags = kFormatYCbCr420SPVenusUbwc ∧
      GetSDMFormat H P H.YV12 flags = kFormatYCrCb420PlanarStride16 ∧
      GetSDMFormat H P H.YCrCb_420_SP flags = kFormatYCrCb420SemiPlanar ∧
      GetSDMFormat H P H.YCbCr_420_SP flags = kFormatYCbCr420SemiPlanar ∧
      GetSDMFormat H P H.YCbCr_422_SP flags = kFormatYCbCr422H2V1SemiPlanar ∧
      GetSDMFormat H P H.YCbCr_422_I flags = kFormatYCbCr422H2V1Packed ∧
      GetSDMFormat H P H.RGBA_1010102 flags = kFormatRGBA1010102 ∧
      GetSDMFormat H P H.ARGB_2101010 flags = kFormatARGB2101010 ∧
      GetSDMFormat H P H.RGBX_1010102 flags = kFormatRGBX1010102 ∧
      GetSDMFormat H P H.XRGB_2101010 flags = kFormatXRGB2101010 ∧
      GetSDMFormat H P H.BGRA_1010102 flags = kFormatBGRA1010102 ∧
      GetSDMFormat H P H.ABGR_2101010 flags = kFormatABGR2101010 ∧
      GetSDMFormat H P H.BGRX_1010102 flags = kFormatBGRX1010102 ∧
      GetSDMFormat H P H.XBGR_2101010 flags = kFormatXBGR2101010 ∧
      GetSDMFormat H P H.YCbCr_420_P010 flags = kFormatYCbCr420P010 ∧
      GetSDMFormat H P H.YCbCr_420_TP10_UBWC flags = kFormatYCbCr420TP10Ubwc ∧
      (∀ f : Int, f ∉ [H.RGBA_8888, H.RGBA_5551, H.RGBA_4444, H.BGRA_8888, H.RGBX_8888,
            H.BGRX_8888, H.RGB_888, H.RGB_565, H.BGR_565, H.NV12_ENCODEABLE,
            H.YCbCr_420_SP_VENUS, H.YCrCb_420_SP_VENUS, H.YCbCr_420_SP_VENUS_UBWC, H.YV12,
            H.YCrCb_420_SP, H.YCbCr_420_SP, H.YCbCr_422_SP, H.YCbCr_422_I, H.RGBA_1010102,
            H.ARGB_2101010, H.RGBX_1010102, H.XRGB_2101010, H.BGRA_1010102, H.ABGR_2101010,
            H.BGRX_1010102, H.XBGR_2101010, H.YCbCr_420_P010, H.YCbCr_420_TP10_UBWC] →
          GetSDMFormat H P f flags = kFormatInvalid)) ∧
    (∀ (f : Int) (flags' : Nat),
      flagSet flags' P.PRIV_FLAGS_UBWC_ALIGNED = flagSet flags P.PRIV_FLAGS_UBWC_ALIGNED →
        GetSDMFormat H P f flags' = GetSDMFormat H P f flags) ∧
    (∀ k : Nat, P.PRIV_FLAGS_UBWC_ALIGNED = 2 ^ k →
      flagSet flags P.PRIV_FLAGS_UBWC_ALIGNED = flags.testBit k) := by
  refine ⟨fun hb => ?_, fun hb => ?_, fun f flags' h => ?_, fun k hk => ?_⟩
  · have key : ∀ e ∈ ubwcTable H, GetSDMFormat H P e.1 flags = e.2 := by
      intro e he
      simp only [GetSDMFormat, hb, if_true]
      exact switchOn_mem kFormatInvalid (ubwcTable H) hub e he
    refine ⟨key (_, _) (by simp [ubwcTable]), key (_, _) (by simp [ubwcTable]),
      key (_, _) (by simp [ubwcTable]), key (_, _) (by simp [ubwcTable]),
      key (_, _) (by simp [ubwcTable]), key (_, _) (by simp [ubwcTable]),
      key (_, _) (by simp [ubwcTable]), key (_, _) (by simp [ubwcTable]), ?_, ?_⟩
    · intro f hf
      simp only [GetSDMFormat, hb, if_true]
      exact switchOn_not_mem _ _ _ (by simpa [ubwcTable] using hf)
    · intro f
      simp only [GetSDMFormat, hb, if_true]
      rcases switchOn_cases f kFormatInvalid (ubwcTable H) with h | h
      · exact Or.inl h
      · right
        have hall : ∀ r ∈ (ubwcTable H).map Prod.snd, r.isUbwc = true := by
          intro r hr
          simp only [ubwcTable, List.map_cons, List.map_nil, List.mem_cons, List.mem_singleton,
            List.not_mem_nil, or_false] at hr
          rcases hr with rfl | rfl | rfl | rfl | rfl | rfl | rfl | rfl <;> rfl
        exact hall _ h
  · have klin : ∀ e ∈ linearTable H, GetSDMFormat H P e.1 flags = e.2 := by
      intro e he
      simp only [GetSDMFormat, hb]
      exact switchOn_mem kFormatInvalid (linearTable H) hlin e he
    refine ⟨klin (_, _) (by simp [linearTable]),
      klin (_, _) (by simp [linearTable]),
      klin (_, _) (by simp [linearTable]),
      klin (_, _) (by simp [linearTable]),
      klin (_, _) (by simp [linearTable]),
      klin (_, _) (by simp [linearTable]),
      klin (_, _) (by simp [linearTable]),
      klin (_, _) (by simp [linearTable]),
      klin (_, _) (by simp [linearTable]),
      klin (_, _) (by simp [linearTable]),
      klin (_, _) (by simp [linearTable]),
      klin (_, _) (by simp [linearTable]),
      klin (_, _) (by simp [linearTable]),
      klin (_, _) (by simp [linearTable]),
      klin (_, _) (by simp [linearTable]),
      klin (_, _) (by simp [linearTable]),
      klin (_, _) (by simp [linearTable]),
      klin (_, _) (by simp [linearTable]),
      klin (_, _) (by simp [linearTable]),
      klin (_, _) (by simp [linearTable]),
      klin (_, _) (by simp [linearTable]),
      klin (_, _) (by simp [linearTable]),
      klin (_, _) (by simp [linearTable]),
      klin (_, _) (by simp [linearTable]),
      klin (_, _) (by simp [linearTable]),
      klin (_, _) (by simp [linearTable]),
      klin (_, _) (by simp [linearTable]),
      klin (_, _) (by simp [linearTable]), ?_⟩
    intro f hf
    simp only [GetSDMFormat, hb]
    exact switchOn_not_mem _ _ _ (by simpa [linearTable] using hf)
  · simp only [GetSDMFormat, h]
  · rw [hk]; exact flagSet_two_pow flags k

/-- C1 at the sample codes: code 0x118 (RGBX_1010102) with the UBWC_ALIGNED bit set gives
the Ubwc variant and code 0x114, which the UBWC switch does not list, gives
`kFormatInvalid`; with the bit clear code 0x114 (YCrCb_420_SP_VENUS) gives its linear
format and code 0x7FA30C06 (YCbCr_420_SP_VENUS_UBWC) the compressed one. -/
theorem GetSDMFormat_table_witness :
    (ubwcCodes sampleFormats).Nodup ∧ (linearCodes sampleFormats).Nodup ∧
    flagSet 0x08000400 sampleFlags.PRIV_FLAGS_UBWC_ALIGNED = true ∧
    GetSDMFormat sampleFormats sampleFlags 0x118 0x08000400 = kFormatRGBX1010102Ubwc ∧
    GetSDMFormat sampleFormats sampleFlags 0x114 0x08000400 = kFormatInvalid ∧
    flagSet 0x400 sampleFlags.PRIV_FLAGS_UBWC_ALIGNED = false ∧
    GetSDMFormat sampleFormats sampleFlags 0x114 0x400 = kFormatYCrCb420SemiPlanarVenus ∧
    GetSDMFormat sampleFormats sampleFlags 0x7FA30C06 0x400 = kFormatYCbCr420SPVenusUbwc :=
  have hub : (ubwcCodes sampleFormats).Nodup := by decide
  have hlin : (linearCodes sampleFormats).Nodup := by decide
  have hb : flagSet 0x08000400 sampleFlags.PRIV_FLAGS_UBWC_ALIGNED = true := by decide
  have hc : flagSet 0x400 sampleFlags.PRIV_FLAGS_UBWC_ALIGNED = false := by decide
  have t := (GetSDMFormat_table sampleFormats sampleFlags hub hlin 0x08000400).1 hb
  have u := (GetSDMFormat_table sampleFormats sampleFlags hub hlin 0x400).2.1 hc
  ⟨hub, hlin, hb, t.2.2.2.2.2.2.2.1, t.2.2.2.2.2.2.2.2.1 0x114 (by decide), hc,
    u.2.2.2.2.2.2.2.2.2.2.2.1, u.2.2.2.2.2.2.2.2.2.2.2.2.1⟩

/-- The loop of `RoundToStandardFPS` on a 32-bit rate, case by case. -/
theorem roundLoop_standard (r : Nat) (hr : r < 2 ^ 32) :
    roundLoop r standard_fps =
      if r = 23 ∨ r = 24 then 24 else if r = 29 ∨ r = 30 then 30
      else if r = 47 ∨ r = 48 then 48 else if r = 59 ∨ r = 60 then 60 else r := by
  norm_num at hr
  simp only [roundLoop, standard_fps, usub32]
  norm_num
  split_ifs <;> omega

theorem frameRateOf_lt {F : Type} (fp : FloatOps F) (fps : F) : frameRateOf fp fps < 2 ^ 32 :=
  Nat.mod_lt _ (by norm_num)

/-- C2, as stated, fails: the rate 40 is returned unchanged, and 40 is not a standard rate. -/
theorem RoundToStandardFPS_not_nearest :
    frameRateOf fixed8 (fixed8.FLOAT 40) = 40 ∧
    RoundToStandardFPS fixed8 (fixed8.FLOAT 40) = 40 ∧ 40 ∉ standard_fps ∧
    ¬ isNearestStandard 40 (RoundToStandardFPS fixed8 (fixed8.FLOAT 40)) := by
  refine ⟨by decide, by decide, by decide, ?_⟩
  intro h
  have h40 : RoundToStandardFPS fixed8 (fixed8.FLOAT 40) = 40 := by decide
  rw [h40] at h
  exact absurd h.1 (by decide)

/-- C2, amended: when the truncated rate is a standard rate or one below a standard rate,
`RoundToStandardFPS` returns that standard rate, which is the nearest one; every other
rate is returned unchanged and is not a standard rate. -/
theorem RoundToStandardFPS_snaps {F : Type} (fp : FloatOps F) (fps : F) :
    (∀ s ∈ standard_fps, (frameRateOf fp fps = s ∨ frameRateOf fp fps + 1 = s) →
      RoundToStandardFPS fp fps = s ∧ isNearestStandard (frameRateOf fp fps) s) ∧
    ((∀ s ∈ standard_fps, ¬ (frameRateOf fp fps = s ∨ frameRateOf fp fps + 1 = s)) →
      RoundToStandardFPS fp fps = frameRateOf fp fps ∧
      RoundToStandardFPS fp fps ∉ standard_fps) := by
  have hr := frameRateOf_lt fp fps
  unfold RoundToStandardFPS
  rw [roundLoop_standard _ hr]
  generalize frameRateOf fp fps = r at hr ⊢
  simp only [standard_fps, isNearestStandard, rateDistance, List.mem_cons, List.mem_singleton,
    List.not_mem_nil, or_false, forall_eq_or_imp, forall_eq]
  refine ⟨⟨?_, ?_, ?_, ?_⟩, ?_⟩
  · rintro (h | h) <;> (have : r = 24 ∨ r = 23 := by omega) <;> rcases this with rfl | rfl <;> decide
  · rintro (h | h) <;> (have : r = 30 ∨ r = 29 := by omega) <;> rcases this with rfl | rfl <;> decide
  · rintro (h | h) <;> (have : r = 48 ∨ r = 47 := by omega) <;> rcases this with rfl | rfl <;> decide
  · rintro (h | h) <;> (have : r = 60 ∨ r = 59 := by omega) <;> rcases this with rfl | rfl <;> decide
  · rintro ⟨h1, h2, h3, h4⟩
    have e : (if r = 23 ∨ r = 24 then 24 else if r = 29 ∨ r = 30 then 30
      else if r = 47 ∨ r = 48 then 48 else if r = 59 ∨ r = 60 then 60 else r) = r := by
      split_ifs <;> omega
    rw [e]
    omega

/-- C4: `SetComposition` resolves the device-selected type by the fixed table: GPU gives
Client whatever the solid-fill flag; SDE with the solid-fill flag set gives SolidColor;
HW cursor gives Cursor; every remaining case gives Device; the result is never Invalid. -/
theorem SetComposition_table {F : Type} (s : HWCLayer F) :
    (SetComposition LayerComposition.kCompositionGPU s).device_selected_ = Composition.Client ∧
    (s.layer_.solid_fill = true →
      (SetComposition LayerComposition.kCompositionSDE s).device_selected_ =
        Composition.SolidColor) ∧
    (SetComposition LayerComposition.kCompositionHWCursor s).device_selected_ =
      Composition.Cursor ∧
    (s.layer_.solid_fill = false →
      (SetComposition LayerComposition.kCompositionSDE s).device_selected_ =
        Composition.Device) ∧
    (∀ raw : Nat,
      (SetComposition (LayerComposition.other raw) s).device_selected_ = Composition.Device) ∧
    (∀ c : LayerComposition, (SetComposition c s).device_selected_ ≠ Composition.Invalid) := by
  refine ⟨?_, ?_, ?_, ?_, ?_, ?_⟩
  · simp [SetComposition]
  · intro h; simp [SetComposition, h]
  · simp [SetComposition]
  · intro h; simp [SetComposition, h]
  · intro raw; simp [SetComposition]
  · intro c
    cases c <;> cases h : s.layer_.solid_fill <;> simp [SetComposition, h]

/-- C4 on a layer with the solid-fill flag set: SDE composition gives SolidColor and GPU
composition still gives Client. -/
theorem SetComposition_table_witness :
    (SetComposition LayerComposition.kCompositionSDE
      { sampleLayer with layer_ := { sampleLayer.layer_ with solid_fill := true } }).device_selected_
      = Composition.SolidColor ∧
    (SetComposition LayerComposition.kCompositionGPU
      { sampleLayer with layer_ := { sampleLayer.layer_ with solid_fill := true } }).device_selected_
      = Composition.Client :=
  ⟨(SetComposition_table
      { sampleLayer with layer_ := { sampleLayer.layer_ with solid_fill := true } }).2.1 rfl,
   (SetComposition_table
      { sampleLayer with layer_ := { sampleLayer.layer_ with solid_fill := true } }).1⟩

/-- C5, as stated, fails: after the client requests Client composition on a new layer,
`SetComposition` with SDE composition resolves the layer to Device. -/
theorem client_request_not_honoured :
    (SetLayerCompositionType Composition.Client sampleLayer).1 = Error.None ∧
    (SetLayerCompositionType Composition.Client sampleLayer).2.client_requested_ =
      Composition.Client ∧
    (SetComposition LayerComposition.kCompositionSDE
      (SetLayerCompositionType Composition.Client sampleLayer).2).device_selected_ =
      Composition.Device := by
  decide

/-- C5, amended: `SetComposition` does not read the client's request.  The resolved type
after any request is the one resolved without it; after a request for Client it is Client
exactly when the display manager chose GPU composition; and `SetComposition` leaves the
recorded request as it was. -/
theorem SetComposition_ignores_request {F : Type} (s : HWCLayer F) (c : LayerComposition) :
    (∀ type : Composition,
      (SetComposition c (SetLayerCompositionType type s).2).device_selected_ =
        (SetComposition c s).device_selected_) ∧
    ((SetComposition c (SetLayerCompositionType Composition.Client s).2).device_selected_ =
        Composition.Client ↔ c = LayerComposition.kCompositionGPU) ∧
    (∀ type : Composition,
      (SetComposition c (SetLayerCompositionType type s).2).client_requested_ = type) := by
  refine ⟨?_, ?_, ?_⟩
  · intro type
    cases type <;> simp [SetComposition, SetLayerCompositionType]
  · cases c <;> cases h : s.layer_.solid_fill <;>
      simp [SetComposition, SetLayerCompositionType, h]
  · intro type
    cases type <;> simp [SetComposition, SetLayerCompositionType]

/-- C6: `SetLayerBuffer` returns BadParameter for a null handle, for a zero acquire
fence and for a handle whose descriptor is negative, in each case closing nothing and
leaving every member of the layer as it was; an acquire fence of -1 passes validation:
with a valid handle the call is not answered with BadParameter, replaces the ion
descriptor, and stores -1 as the acquire fence when it returns `Error::None`. -/
theorem SetLayerBuffer_validates {F : Type} (fp : FloatOps F) (H : HalPixelFormat)
    (P : PrivFlags) (S : HalS3D) (env : BufferEnv) (s : HWCLayer F) :
    (∀ acquire_fence : Int,
      SetLayerBuffer fp H P S none acquire_fence env s = (Error.BadParameter, [], s)) ∧
    (∀ handle : private_handle_t,
      SetLayerBuffer fp H P S (some handle) 0 env s = (Error.BadParameter, [], s)) ∧
    (∀ (handle : private_handle_t) (acquire_fence : Int), handle.fd < 0 →
      SetLayerBuffer fp H P S (some handle) acquire_fence env s = (Error.BadParameter, [], s)) ∧
    (∀ handle : private_handle_t, 0 ≤ handle.fd →
      (SetLayerBuffer fp H P S (some handle) (-1) env s).1 ≠ Error.BadParameter ∧
      (SetLayerBuffer fp H P S (some handle) (-1) env s).2.1 = [s.ion_fd_] ∧
      (SetLayerBuffer fp H P S (some handle) (-1) env s).2.2.ion_fd_ = env.dup_fd ∧
      ((SetLayerBuffer fp H P S (some handle) (-1) env s).1 = Error.None →
        (SetLayerBuffer fp H P S (some handle) (-1) env s).2.2.layer_.input_buffer.acquire_fence_fd
          = -1)) := by
  refine ⟨?_, ?_, ?_, ?_⟩
  · intro acquire_fence
    rfl
  · intro handle
    simp [SetLayerBuffer]
  · intro handle acquire_fence hfd
    simp [SetLayerBuffer, hfd]
  · intro handle hfd
    have hfd' : ¬ handle.fd < 0 := not_lt.mpr hfd
    have h0 : ¬ ((-1 : Int) = 0) := by decide
    simp only [SetLayerBuffer, hfd', h0, if_false]
    split_ifs <;> simp

/-- C6 on a new layer: a handle with descriptor -1 is rejected and nothing changes, while
the valid handle with fence -1 is accepted. -/
theorem SetLayerBuffer_validates_witness :
    SetLayerBuffer fixed8 sampleFormats sampleFlags sampleS3D
        (some { sampleHandle with fd := -1 }) 7 sampleEnv sampleLayer
      = (Error.BadParameter, [], sampleLayer) ∧
    (SetLayerBuffer fixed8 sampleFormats sampleFlags sampleS3D (some sampleHandle) (-1)
        sampleEnv sampleLayer).1 ≠ Error.BadParameter :=
  ⟨(SetLayerBuffer_validates fixed8 sampleFormats sampleFlags sampleS3D sampleEnv
      sampleLayer).2.2.1 { sampleHandle with fd := -1 } 7 (by decide),
   ((SetLayerBuffer_validates fixed8 sampleFormats sampleFlags sampleS3D sampleEnv
      sampleLayer).2.2.2 sampleHandle (by decide)).1⟩

/-- A code that is none of the labels of the switch chosen by the flag word is mapped
to `kFormatInvalid`. -/
theorem GetSDMFormat_unsupported (H : HalPixelFormat) (P : PrivFlags) (source : Int)
    (flags : Nat) (h : source ∉ formatLabels H P flags) :
    GetSDMFormat H P source flags = kFormatInvalid := by
  unfold formatLabels at h
  unfold GetSDMFormat
  split_ifs at h ⊢
  · exact switchOn_not_mem _ _ _ h
  · exact switchOn_not_mem _ _ _ h

/-- A stereo code that is none of the labels of `GetS3DFormat` is mapped to
`kS3dFormatNone`. -/
theorem GetS3DFormat_unsupported (S : HalS3D) (v : Nat) (h : (v : Int) ∉ s3dLabels S) :
    GetS3DFormat S v = LayerBufferS3DFormat.kS3dFormatNone := by
  unfold GetS3DFormat
  exact switchOn_not_mem _ _ _ (by simpa [s3dLabels] using h)

/-- `SetMetaData` fails exactly on an unsupported color-space or gamma value. -/
theorem SetMetaData_error {F : Type} (fp : FloatOps F) (H : HalPixelFormat) (P : PrivFlags)
    (S : HalS3D) (m : MetaDataReply) (layer : Layer F) :
    ((SetMetaData fp H P S m layer).1 = DisplayError.kErrorNone ∨
      (SetMetaData fp H P S m layer).1 = DisplayError.kErrorNotSupported) ∧
    ((SetMetaData fp H P S m layer).1 = DisplayError.kErrorNotSupported ↔
      ((∃ raw, m.color_space = some (ColorSpace_t.other raw)) ∨
       (∃ raw, m.igc = some (IGC_t.other raw)))) := by
  rcases m with ⟨bg, cs, ig, rr, il, lf, s3⟩
  rcases cs with _ | (_ | _ | _ | _) <;> rcases ig with _ | (_ | _ | _) <;>
    simp [SetMetaData, SetCSC, SetIGC]

/-- The format and stereo format that the infallible part of `SetMetaData` leaves. -/
theorem SetMetaData_tail_formats {F : Type} (fp : FloatOps F) (H : HalPixelFormat)
    (P : PrivFlags) (S : HalS3D) (m : MetaDataReply) (layer : Layer F) :
    (SetMetaData.tail fp H P S m layer).input_buffer.format =
      (match m.linear_format with
       | some lf => GetSDMFormat H P (INT32 lf) 0
       | none => layer.input_buffer.format) ∧
    (SetMetaData.tail fp H P S m layer).input_buffer.s3d_format =
      (match m.s3d_format with
       | some v => GetS3DFormat S v
       | none => layer.input_buffer.s3d_format) := by
  rcases m with ⟨bg, cs, ig, rr, il, lf, s3⟩
  cases rr <;> cases il <;> cases lf <;> cases s3 <;> exact ⟨rfl, rfl⟩

/-- When `SetMetaData` succeeds, the format and stereo format it leaves are those of the
last successful query. -/
theorem SetMetaData_success {F : Type} (fp : FloatOps F) (H : HalPixelFormat) (P : PrivFlags)
    (S : HalS3D) (m : MetaDataReply) (layer : Layer F)
    (h : (SetMetaData fp H P S m layer).1 = DisplayError.kErrorNone) :
    (SetMetaData fp H P S m layer).2.input_buffer.format =
      (match m.linear_format with
       | some lf => GetSDMFormat H P (INT32 lf) 0
       | none => layer.input_buffer.format) ∧
    (SetMetaData fp H P S m layer).2.input_buffer.s3d_format =
      (match m.s3d_format with
       | some v => GetS3DFormat S v
       | none => layer.input_buffer.s3d_format) := by
  revert h
  unfold SetMetaData
  simp only
  split_ifs with h1 h2
  · intro h; exact absurd h (by simp)
  · intro h; exact absurd h (by simp)
  · intro _
    simp only [SetMetaData_tail_formats]
    rcases m.buffer_geometry with _ | ⟨w, hh⟩ <;> exact ⟨rfl, rfl⟩

/-- C7, as stated, fails: with the valid handle, acquire fence 7 and metadata whose
color-space query yields an unsupported value, `SetLayerBuffer` on a new layer returns
BadLayer. -/
theorem unsupported_color_space_is_BadLayer :
    0 ≤ sampleHandle.fd ∧
    (SetLayerBuffer fixed8 sampleFormats sampleFlags sampleS3D (some sampleHandle) 7
      { dup_fd := 9,
        metadata := { noMetaData with color_space := some (ColorSpace_t.other 3) } }
      sampleLayer).1 = Error.BadLayer := by
  decide

/-- C7, amended: for a handle that passes validation and a non-zero acquire fence,
`SetLayerBuffer` returns `Error::None` or BadLayer, and BadLayer exactly when the
color-space or gamma query yields an unsupported value.  When it returns `Error::None`, a
pixel-format code that is none of the switch labels is stored as `kFormatInvalid` (from
the handle when the linear-format query fails, from the query otherwise) and a stereo
code that is none of the switch labels is stored as `kS3dFormatNone`. -/
theorem SetLayerBuffer_errors {F : Type} (fp : FloatOps F) (H : HalPixelFormat)
    (P : PrivFlags) (S : HalS3D) (handle : private_handle_t) (acquire_fence : Int)
    (env : BufferEnv) (s : HWCLayer F) (hfd : 0 ≤ handle.fd) (hfence : acquire_fence ≠ 0)
    (r : Error × List Int × HWCLayer F)
    (hr : SetLayerBuffer fp H P S (some handle) acquire_fence env s = r) :
    (r.1 = Error.None ∨ r.1 = Error.BadLayer) ∧
    (r.1 = Error.BadLayer ↔
      ((∃ raw, env.metadata.color_space = some (ColorSpace_t.other raw)) ∨
       (∃ raw, env.metadata.igc = some (IGC_t.other raw)))) ∧
    (r.1 = Error.None → env.metadata.linear_format = none →
      handle.format ∉ formatLabels H P handle.flags →
      r.2.2.layer_.input_buffer.format = kFormatInvalid) ∧
    (r.1 = Error.None → ∀ lf : Nat, env.metadata.linear_format = some lf →
      INT32 lf ∉ formatLabels H P 0 →
      r.2.2.layer_.input_buffer.format = kFormatInvalid) ∧
    (r.1 = Error.None → ∀ v : Nat, env.metadata.s3d_format = some v →
      (v : Int) ∉ s3dLabels S →
      r.2.2.layer_.input_buffer.s3d_format = LayerBufferS3DFormat.kS3dFormatNone) := by
  subst hr
  have hfd' : ¬ handle.fd < 0 := not_lt.mpr hfd
  obtain ⟨hcases, hiff⟩ := SetMetaData_error fp H P S env.metadata
    { s.layer_ with
      input_buffer :=
        { s.layer_.input_buffer with
          width := UINT32 handle.width, height := UINT32 handle.height,
          format := GetSDMFormat H P handle.format handle.flags } }
  have hsucc := SetMetaData_success fp H P S env.metadata
    { s.layer_ with
      input_buffer :=
        { s.layer_.input_buffer with
          width := UINT32 handle.width, height := UINT32 handle.height,
          format := GetSDMFormat H P handle.format handle.flags } }
  simp only [SetLayerBuffer, hfence, hfd', if_false]
  rcases hcases with hok | hbad
  · have hno : ¬ ((∃ raw, env.metadata.color_space = some (ColorSpace_t.other raw)) ∨
        (∃ raw, env.metadata.igc = some (IGC_t.other raw))) := by
      rw [← hiff, hok]; simp
    have hs := hsucc hok
    simp only [hok, ne_eq, not_true_eq_false, if_false, true_or, true_implies]
    refine ⟨trivial, ?_, ?_, ?_, ?_⟩
    · simp [hno]
    · intro hlf hmem
      rw [hs.1, hlf]
      exact GetSDMFormat_unsupported H P _ _ hmem
    · intro lf hlf hmem
      rw [hs.1, hlf]
      exact GetSDMFormat_unsupported H P _ _ hmem
    · intro v hv hmem
      rw [hs.2, hv]
      exact GetS3DFormat_unsupported S v hmem
  · have hyes := hiff.mp hbad
    simp [hbad, hyes]

/-- C7 amended, on a new layer: the handle with the unknown format code 0x999 and the
unknown stereo code 3 is accepted with `Error::None`, the format stored as
`kFormatInvalid` and the stereo format as `kS3dFormatNone`. -/
theorem SetLayerBuffer_errors_witness :
    (SetLayerBuffer fixed8 sampleFormats sampleFlags sampleS3D
      (some { sampleHandle with format := 0x999 }) 7
      { dup_fd := 9, metadata := { noMetaData with s3d_format := some 3 } } sampleLayer).1
      = Error.None ∧
    (SetLayerBuffer fixed8 sampleFormats sampleFlags sampleS3D
      (some { sampleHandle with format := 0x999 }) 7
      { dup_fd := 9, metadata := { noMetaData with s3d_format := some 3 } }
      sampleLayer).2.2.layer_.input_buffer.format = kFormatInvalid ∧
    (SetLayerBuffer fixed8 sampleFormats sampleFlags sampleS3D
      (some { sampleHandle with format := 0x999 }) 7
      { dup_fd := 9, metadata := { noMetaData with s3d_format := some 3 } }
      sampleLayer).2.2.layer_.input_buffer.s3d_format = LayerBufferS3DFormat.kS3dFormatNone :=
  have t := SetLayerBuffer_errors fixed8 sampleFormats sampleFlags sampleS3D
    { sampleHandle with format := 0x999 } 7
    { dup_fd := 9, metadata := { noMetaData with s3d_format := some 3 } } sampleLayer
    (by decide) (by decide) _ rfl
  have h1 : (SetLayerBuffer fixed8 sampleFormats sampleFlags sampleS3D
      (some { sampleHandle with format := 0x999 }) 7
      { dup_fd := 9, metadata := { noMetaData with s3d_format := some 3 } } sampleLayer).1
      = Error.None := by decide
  ⟨h1, t.2.2.1 h1 rfl (by decide), t.2.2.2.2 h1 3 rfl (by decide)⟩

/-- Running two call sequences one after the other. -/
theorem runFenceCalls_append {F : Type} (a b : List FenceCall) :
    ∀ s : HWCLayer F, runFenceCalls (a ++ b) s =
      ((runFenceCalls a s).1 ++ (runFenceCalls b (runFenceCalls a s).2).1,
       (runFenceCalls b (runFenceCalls a s).2).2) := by
  induction a with
  | nil => intro s; simp [runFenceCalls]
  | cons c a ih =>
    intro s
    cases c with
    | push fence => simp [runFenceCalls, ih]
    | pop => simp [runFenceCalls, ih]

theorem pushedFences_append (a b : List FenceCall) :
    pushedFences (a ++ b) = pushedFences a ++ pushedFences b := by
  induction a with
  | nil => rfl
  | cons c a ih => cases c <;> simp [pushedFences, ih]

theorem popCount_append (a b : List FenceCall) :
    popCount (a ++ b) = popCount a + popCount b := by
  induction a with
  | nil => simp [popCount]
  | cons c a ih =>
    cases c with
    | push fence => simp [popCount, ih]
    | pop => simp [popCount, ih]; omega

/-- An initial part of a sequence in which every pop is fed has every pop fed. -/
theorem EveryPopFed.init {a b : List FenceCall} (h : EveryPopFed (a ++ b)) : EveryPopFed a := by
  intro n hn
  have := h n (by rw [List.length_append]; omega)
  rwa [List.take_append_of_le_length hn] at this

/-- The count of a fed sequence as a whole. -/
theorem EveryPopFed.total {a : List FenceCall} (h : EveryPopFed a) :
    popCount a ≤ (pushedFences a).length + 1 := by
  have := h a.length le_rfl
  rwa [List.take_length] at this

/-- On a new layer, while every pop is fed, the queue holds what is left of -1 followed by
the pushed fences, and the pops have returned the entries before that, none starved. -/
theorem fed_run_invariant {F : Type} (init : HWCLayer F) (calls : List FenceCall) :
    EveryPopFed calls →
      (runFenceCalls calls (HWCLayer.construct init)).2.release_fences_ =
        ((-1) :: pushedFences calls).drop (popCount calls) ∧
      (runFenceCalls calls (HWCLayer.construct init)).1.map PopRecord.fence =
        ((-1) :: pushedFences calls).take (popCount calls) ∧
      (∀ r ∈ (runFenceCalls calls (HWCLayer.construct init)).1, r.starved = false) := by
  induction calls using List.reverseRecOn with
  | nil =>
    intro _
    simp [runFenceCalls, HWCLayer.construct, PushReleaseFence, pushedFences, popCount]
  | append_singleton calls c ih =>
    intro h
    obtain ⟨hq, hres, hst⟩ := ih h.init
    have htot := h.total
    have hpre := h.init.total
    rw [runFenceCalls_append]
    cases c with
    | push fence =>
      simp only [pushedFences_append, popCount_append, pushedFences, popCount, runFenceCalls,
        PushReleaseFence, List.append_nil, Nat.add_zero, hq]
      have hlen : popCount calls ≤ ((-1 : Int) :: pushedFences calls).length := by
        simp only [List.length_cons]; exact hpre
      refine ⟨?_, ?_, hst⟩
      · rw [← List.cons_append, List.drop_append_of_le_length hlen]
      · rw [hres, ← List.cons_append, List.take_append_of_le_length hlen]
    | pop =>
      simp only [pushedFences_append, popCount_append, pushedFences, popCount,
        List.length_append, List.length_nil, List.append_nil, Nat.add_zero, Nat.zero_add] at htot ⊢
      have hlt : popCount calls < ((-1 : Int) :: pushedFences calls).length := by
        simp only [List.length_cons]; omega
      have hdrop := List.drop_eq_getElem_cons hlt
      simp only [runFenceCalls, PopReleaseFence, hq, hdrop, List.map_append, List.map_cons,
        List.map_nil, hres, List.isEmpty_cons]
      refine ⟨trivial, ?_, ?_⟩
      · rw [List.take_succ, List.getElem?_eq_getElem hlt]; rfl
      · intro r hr
        rcases List.mem_append.mp hr with hr | hr
        · exact hst r hr
        · simp only [List.mem_singleton] at hr
          rw [hr]

/-- Pushing a list of fences queues them in order and pops nothing. -/
theorem runFenceCalls_pushes {F : Type} (fs : List Int) :
    ∀ s : HWCLayer F, runFenceCalls (fs.map FenceCall.push) s =
      ([], { s with release_fences_ := s.release_fences_ ++ fs }) := by
  induction fs with
  | nil => intro s; simp [runFenceCalls]
  | cons f fs ih => intro s; simp [runFenceCalls, ih, PushReleaseFence]

/-- Popping `k` times from a queue of at least `k` fences returns its first `k` fences. -/
theorem runFenceCalls_pops {F : Type} (k : Nat) :
    ∀ s : HWCLayer F, k ≤ s.release_fences_.length →
      (runFenceCalls (List.replicate k FenceCall.pop) s).1.map PopRecord.fence =
        s.release_fences_.take k := by
  induction k with
  | zero => intro s _; simp [runFenceCalls]
  | succ k ih =>
    intro s hk
    rcases hq : s.release_fences_ with _ | ⟨f, q⟩
    · rw [hq] at hk; simp at hk
    · rw [hq] at hk
      simp only [List.length_cons, Nat.add_le_add_iff_right] at hk
      simp only [List.replicate_succ, runFenceCalls, PopReleaseFence, hq, List.map_cons,
        List.take_succ_cons]
      rw [ih _ (by simpa using hk)]

/-- C8, as stated, fails.  On a new layer the calls pop, pop, push 11, push 12, pop return
-1, -1 and 11: two fences were pushed before the third pop, and it returns the first of
them, not the second. -/
theorem third_pop_returns_first_push :
    (runFenceCalls [FenceCall.pop, FenceCall.pop, FenceCall.push 11, FenceCall.push 12,
        FenceCall.pop] sampleLayer).1.map PopRecord.fence = [-1, -1, 11] ∧
    pushedFences [FenceCall.pop, FenceCall.pop, FenceCall.push 11, FenceCall.push 12] = [11, 12] ∧
    popCount [FenceCall.pop, FenceCall.pop, FenceCall.push 11, FenceCall.push 12] + 1 = 3 ∧
    (pushedFences [FenceCall.pop, FenceCall.pop, FenceCall.push 11, FenceCall.push 12])[3 - 2]?
      = some 12 := by
  decide

/-- C8, amended: the release fences of a layer form a FIFO seeded with -1.  The first pop
on a new layer returns -1, as does the first pop of any call sequence; a pop made after
the calls `pre`, when it and every pop before it had a fence to take, returns entry
number `popCount pre` of -1 followed by the fences pushed so far, that is the
`(k-1)`-th pushed fence for the `k`-th pop, `k ≥ 2`; a pop on an empty queue returns -1
and leaves the queue empty; and pushing `fs` then popping `fs.length + 1` times returns
-1 followed by `fs`. -/
theorem release_fences_fifo {F : Type} (init : HWCLayer F) :
    (PopReleaseFence (HWCLayer.construct init)).1 = -1 ∧
    (∀ pre : List FenceCall, popCount pre = 0 →
      (PopReleaseFence (runFenceCalls pre (HWCLayer.construct init)).2).1 = -1) ∧
    (∀ pre : List FenceCall, EveryPopFed (pre ++ [FenceCall.pop]) →
      ((-1) :: pushedFences pre)[popCount pre]? =
        some (PopReleaseFence (runFenceCalls pre (HWCLayer.construct init)).2).1) ∧
    (∀ pre : List FenceCall, EveryPopFed (pre ++ [FenceCall.pop]) → 1 ≤ popCount pre →
      (pushedFences pre)[popCount pre - 1]? =
        some (PopReleaseFence (runFenceCalls pre (HWCLayer.construct init)).2).1) ∧
    (∀ s : HWCLayer F, s.release_fences_ = [] → PopReleaseFence s = (-1, s)) ∧
    (∀ fs : List Int,
      (runFenceCalls (fs.map FenceCall.push ++ List.replicate (fs.length + 1) FenceCall.pop)
        (HWCLayer.construct init)).1.map PopRecord.fence = (-1) :: fs) := by
  have key : ∀ pre : List FenceCall, EveryPopFed (pre ++ [FenceCall.pop]) →
      ((-1) :: pushedFences pre)[popCount pre]? =
        some (PopReleaseFence (runFenceCalls pre (HWCLayer.construct init)).2).1 := by
    intro pre h
    obtain ⟨hq, -, -⟩ := fed_run_invariant init pre h.init
    have htot := h.total
    simp only [pushedFences_append, popCount_append, pushedFences, popCount,
      List.append_nil, Nat.zero_add] at htot
    have hlt : popCount pre < ((-1 : Int) :: pushedFences pre).length := by
      simp only [List.length_cons]; omega
    simp only [PopReleaseFence, hq, List.drop_eq_getElem_cons hlt,
      List.getElem?_eq_getElem hlt]
  refine ⟨?_, ?_, key, ?_, ?_, ?_⟩
  · simp [PopReleaseFence, HWCLayer.construct, PushReleaseFence]
  · intro pre h0
    have hfed : EveryPopFed (pre ++ [FenceCall.pop]) := by
      intro n _
      have hle : popCount ((pre ++ [FenceCall.pop]).take n) ≤ 1 := by
        have e := popCount_append ((pre ++ [FenceCall.pop]).take n)
          ((pre ++ [FenceCall.pop]).drop n)
        rw [List.take_append_drop, popCount_append, h0] at e
        simp only [popCount] at e
        omega
      omega
    have := key pre hfed
    rw [h0] at this
    simpa using this.symm
  · intro pre h h1
    have := key pre h
    obtain ⟨k, hk⟩ : ∃ k, popCount pre = k + 1 := ⟨popCount pre - 1, by omega⟩
    rw [hk] at this ⊢
    simpa using this
  · intro s hs
    simp [PopReleaseFence, hs]
  · intro fs
    rw [runFenceCalls_append, runFenceCalls_pushes]
    simp only [List.nil_append]
    rw [runFenceCalls_pops]
    · simp [HWCLayer.construct, PushReleaseFence, List.take_of_length_le]
    · simp [HWCLayer.construct, PushReleaseFence]

/-- C8 amended, on a new layer: after push 11, pop, push 12 the next pop is the second
pop, every pop is fed, and it returns the first pushed fence, 11. -/
theorem release_fences_fifo_witness :
    EveryPopFed ([FenceCall.push 11, FenceCall.pop, FenceCall.push 12] ++ [FenceCall.pop]) ∧
    (pushedFences [FenceCall.push 11, FenceCall.pop, FenceCall.push 12])[
        popCount [FenceCall.push 11, FenceCall.pop, FenceCall.push 12] - 1]? =
      some (PopReleaseFence (runFenceCalls [FenceCall.push 11, FenceCall.pop, FenceCall.push 12]
        (HWCLayer.construct sampleInit)).2).1 ∧
    (PopReleaseFence (runFenceCalls [FenceCall.push 11, FenceCall.pop, FenceCall.push 12]
        (HWCLayer.construct sampleInit)).2).1 = 11 :=
  have hfed : EveryPopFed
      ([FenceCall.push 11, FenceCall.pop, FenceCall.push 12] ++ [FenceCall.pop]) := by
    intro n hn
    have hn' : n ≤ 4 := hn
    interval_cases n <;> decide
  ⟨hfed,
   (release_fences_fifo sampleInit).2.2.2.1 [FenceCall.push 11, FenceCall.pop, FenceCall.push 12]
     hfed (by decide),
   by decide⟩

/-- The destructor loop closes the whole queue, front first, and empties it. -/
theorem closeReleaseFences_all (q : List Int) : closeReleaseFences q = (q, []) := by
  induction q with
  | nil => rfl
  | cons f q ih => simp [closeReleaseFences, ih]

/-- The fences taken by the pops of a run, followed by the fences left in the queue, are
the fences the queue started with followed by the pushed fences. -/
theorem dequeued_append_queue {F : Type} (calls : List FenceCall) :
    ∀ s : HWCLayer F,
      dequeued (runFenceCalls calls s).1 ++ (runFenceCalls calls s).2.release_fences_ =
        s.release_fences_ ++ pushedFences calls := by
  induction calls with
  | nil => intro s; simp [runFenceCalls, dequeued, pushedFences]
  | cons c calls ih =>
    intro s
    cases c with
    | push fence =>
      simp only [runFenceCalls, pushedFences]
      rw [ih]
      simp [PushReleaseFence]
    | pop =>
      rcases hq : s.release_fences_ with _ | ⟨f, q⟩
      · have hs : PopReleaseFence s = (-1, s) := by simp [PopReleaseFence, hq]
        have := ih s
        simp only [dequeued] at this
        simp only [runFenceCalls, pushedFences, dequeued, hs, hq, List.isEmpty_nil,
          Bool.not_true, List.filter_cons_of_neg, Bool.false_eq_true, not_false_eq_true]
        rw [this, hq]
      · have := ih { s with release_fences_ := q }
        simp only [dequeued] at this
        simp only [runFenceCalls, pushedFences, dequeued, PopReleaseFence, hq,
          List.isEmpty_cons, Bool.not_false, List.filter_cons_of_pos, List.map_cons,
          List.cons_append]
        rw [this]

/-- A pop that finds the queue empty returns -1. -/
theorem starved_returns_minus_one {F : Type} (calls : List FenceCall) :
    ∀ s : HWCLayer F, ∀ r ∈ (runFenceCalls calls s).1, r.starved = true → r.fence = -1 := by
  induction calls with
  | nil => intro s r hr; simp [runFenceCalls] at hr
  | cons c calls ih =>
    intro s r hr
    cases c with
    | push fence => exact ih _ r (by simpa [runFenceCalls] using hr)
    | pop =>
      simp only [runFenceCalls, List.mem_cons] at hr
      rcases hr with rfl | hr
      · rcases hq : s.release_fences_ with _ | ⟨f, q⟩ <;> simp [PopReleaseFence, hq]
      · exact ih _ r hr

/-- A run of fence calls leaves the ion descriptor of the layer as it was. -/
theorem runFenceCalls_ion_fd {F : Type} (calls : List FenceCall) :
    ∀ s : HWCLayer F, (runFenceCalls calls s).2.ion_fd_ = s.ion_fd_ := by
  induction calls with
  | nil => intro s; rfl
  | cons c calls ih =>
    intro s
    cases c with
    | push fence => simp [runFenceCalls, ih, PushReleaseFence]
    | pop =>
      rcases hq : s.release_fences_ with _ | ⟨f, q⟩ <;>
        simp [runFenceCalls, ih, PopReleaseFence, hq]

/-- C9: for every sequence of pushes and pops on a new layer followed by its destruction,
the fences taken out by the pops, followed by the fences the destructor closes, are
exactly -1 and the pushed fences in push order, so that every pushed fence is returned
by one pop or closed once by the destructor, never both and never neither; the
destructor closes the fences still queued, in queue order, then the ion descriptor, and
leaves the queue empty; a pop that took nothing from the queue returned -1. -/
theorem release_fences_accounted {F : Type} (init : HWCLayer F) (calls : List FenceCall) :
    dequeued (runFenceCalls calls (HWCLayer.construct init)).1 ++
        (runFenceCalls calls (HWCLayer.construct init)).2.release_fences_ =
      (-1) :: pushedFences calls ∧
    (∀ f : Int,
      ((-1) :: pushedFences calls).count f =
        (dequeued (runFenceCalls calls (HWCLayer.construct init)).1).count f +
        ((runFenceCalls calls (HWCLayer.construct init)).2.release_fences_).count f) ∧
    (HWCLayer.destroy (runFenceCalls calls (HWCLayer.construct init)).2).1 =
      (runFenceCalls calls (HWCLayer.construct init)).2.release_fences_ ++ [init.ion_fd_] ∧
    (HWCLayer.destroy (runFenceCalls calls (HWCLayer.construct init)).2).2.release_fences_ = [] ∧
    (∀ s : HWCLayer F, (HWCLayer.destroy s).1 = s.release_fences_ ++ [s.ion_fd_] ∧
      (HWCLayer.destroy s).2.release_fences_ = []) ∧
    (∀ r ∈ (runFenceCalls calls (HWCLayer.construct init)).1, r.starved = true → r.fence = -1) := by
  have hacc := dequeued_append_queue calls (HWCLayer.construct init)
  have hnew : (HWCLayer.construct init).release_fences_ = [-1] := by
    simp [HWCLayer.construct, PushReleaseFence]
  rw [hnew] at hacc
  have hd : ∀ s : HWCLayer F, (HWCLayer.destroy s).1 = s.release_fences_ ++ [s.ion_fd_] ∧
      (HWCLayer.destroy s).2.release_fences_ = [] := by
    intro s
    simp [HWCLayer.destroy, closeReleaseFences_all]
  refine ⟨by simpa using hacc, ?_, ?_, (hd _).2, hd, starved_returns_minus_one calls _⟩
  · intro f
    rw [← List.count_append, hacc]
    simp
  · rw [(hd _).1, runFenceCalls_ion_fd]
    simp [HWCLayer.construct, PushReleaseFence]

/-- C9 on a new layer with descriptor -1: after push 11, pop, pop, push 12 the pops took
-1 and 11 out of the queue, and the destructor closes 12 and then the ion descriptor. -/
theorem release_fences_accounted_witness :
    dequeued (runFenceCalls [FenceCall.push 11, FenceCall.pop, FenceCall.pop, FenceCall.push 12]
        (HWCLayer.construct sampleInit)).1 = [-1, 11] ∧
    (HWCLayer.destroy (runFenceCalls
        [FenceCall.push 11, FenceCall.pop, FenceCall.pop, FenceCall.push 12]
        (HWCLayer.construct sampleInit)).2).1 = [12, -1] ∧
    dequeued (runFenceCalls [FenceCall.push 11, FenceCall.pop, FenceCall.pop, FenceCall.push 12]
        (HWCLayer.construct sampleInit)).1 ++
      (runFenceCalls [FenceCall.push 11, FenceCall.pop, FenceCall.pop, FenceCall.push 12]
        (HWCLayer.construct sampleInit)).2.release_fences_ =
      (-1) :: pushedFences [FenceCall.push 11, FenceCall.pop, FenceCall.pop, FenceCall.push 12] :=
  ⟨by decide, by decide,
   (release_fences_accounted sampleInit
      [FenceCall.push 11, FenceCall.pop, FenceCall.pop, FenceCall.push 12]).1⟩

/-- What one `SetLayerBuffer` call closes and which descriptors it leaves: a rejected call
closes nothing and changes nothing; any other call closes the ion descriptor held so far,
holds the one `dup` returns, and leaves the release-fence queue alone. -/
theorem SetLayerBuffer_closes {F : Type} (fp : FloatOps F) (H : HalPixelFormat)
    (P : PrivFlags) (S : HalS3D) (handle : private_handle_t) (acquire_fence : Int)
    (env : BufferEnv) (s : HWCLayer F) :
    ((acquire_fence = 0 ∨ handle.fd < 0) →
      SetLayerBuffer fp H P S (some handle) acquire_fence env s = (Error.BadParameter, [], s)) ∧
    (¬ (acquire_fence = 0 ∨ handle.fd < 0) →
      (SetLayerBuffer fp H P S (some handle) acquire_fence env s).2.1 = [s.ion_fd_] ∧
      (SetLayerBuffer fp H P S (some handle) acquire_fence env s).2.2.ion_fd_ = env.dup_fd ∧
      (SetLayerBuffer fp H P S (some handle) acquire_fence env s).2.2.release_fences_ =
        s.release_fences_) := by
  constructor
  · rintro (h | h)
    · simp [SetLayerBuffer, h]
    · simp [SetLayerBuffer, h]
  · intro h
    rw [not_or] at h
    simp only [SetLayerBuffer, h.1, h.2, if_false]
    split_ifs <;> simp

/-- A sequence of `SetLayerBuffer` calls closes the ion descriptors that `ionClosures`
reads off the arguments, ends holding the descriptor it names, and leaves the
release-fence queue alone. -/
theorem runBufferCalls_closes {F : Type} (fp : FloatOps F) (H : HalPixelFormat)
    (P : PrivFlags) (S : HalS3D) (calls : List BufferCall) :
    ∀ s : HWCLayer F,
      (runBufferCalls fp H P S calls s).2.1 = (ionClosures calls s.ion_fd_).1 ∧
      (runBufferCalls fp H P S calls s).2.2.ion_fd_ = (ionClosures calls s.ion_fd_).2 ∧
      (runBufferCalls fp H P S calls s).2.2.release_fences_ = s.release_fences_ := by
  induction calls with
  | nil => intro s; simp [runBufferCalls, ionClosures]
  | cons c calls ih =>
    intro s
    obtain ⟨hrej, hacc⟩ := SetLayerBuffer_closes fp H P S c.handle c.acquire_fence c.env s
    by_cases h : c.acquire_fence = 0 ∨ c.handle.fd < 0
    · have e := hrej h
      obtain ⟨h1, h2, h3⟩ := ih s
      simp only [runBufferCalls, ionClosures, e, h, if_true, List.nil_append]
      exact ⟨h1, h2, h3⟩
    · obtain ⟨e1, e2, e3⟩ := hacc h
      obtain ⟨h1, h2, h3⟩ :=
        ih (SetLayerBuffer fp H P S (some c.handle) c.acquire_fence c.env s).2.2
      simp only [runBufferCalls, ionClosures, h, if_false]
      rw [h1, h2, h3, e1, e2, e3]
      simp

/-- Every descriptor that `ionClosures` names is the starting descriptor or one returned
by `dup`. -/
theorem ionClosures_mem (calls : List BufferCall) :
    ∀ (ion a : Int), (a ∈ (ionClosures calls ion).1 ∨ a = (ionClosures calls ion).2) →
      a = ion ∨ a ∈ calls.map (fun c => c.env.dup_fd) := by
  induction calls with
  | nil =>
    intro ion a h
    simpa [ionClosures] using h
  | cons c calls ih =>
    intro ion a h
    by_cases hc : c.acquire_fence = 0 ∨ c.handle.fd < 0
    · simp only [ionClosures, hc, if_true] at h
      rcases ih ion a h with h | h
      · exact Or.inl h
      · exact Or.inr (List.mem_cons_of_mem _ h)
    · simp only [ionClosures, hc, if_false, List.mem_cons] at h
      rcases h with (h | h) | h
      · exact Or.inl h
      · rcases ih _ a (Or.inl h) with h | h
        · exact Or.inr (by simp [h])
        · exact Or.inr (List.mem_cons_of_mem _ h)
      · rcases ih _ a (Or.inr h) with h | h
        · exact Or.inr (by simp [h])
        · exact Or.inr (List.mem_cons_of_mem _ h)

/-- C10, as stated, fails.  Two successful `SetLayerBuffer` calls on a new layer with
acquire fences 7 and 8 (`dup` returning 9 and 10), followed by the destruction of the
layer, close the descriptors -1, 9, -1 and 10: neither acquire fence is closed. -/
theorem acquire_fences_left_open :
    (runBufferCalls fixed8 sampleFormats sampleFlags sampleS3D
      [{ handle := sampleHandle, acquire_fence := 7, env := { sampleEnv with dup_fd := 9 } },
       { handle := sampleHandle, acquire_fence := 8, env := { sampleEnv with dup_fd := 10 } }]
      sampleLayer).1 = [Error.None, Error.None] ∧
    closedByLifetime fixed8 sampleFormats sampleFlags sampleS3D
      [{ handle := sampleHandle, acquire_fence := 7, env := { sampleEnv with dup_fd := 9 } },
       { handle := sampleHandle, acquire_fence := 8, env := { sampleEnv with dup_fd := 10 } }]
      sampleLayer = [-1, 9, -1, 10] ∧
    (7 : Int) ∉ closedByLifetime fixed8 sampleFormats sampleFlags sampleS3D
      [{ handle := sampleHandle, acquire_fence := 7, env := { sampleEnv with dup_fd := 9 } },
       { handle := sampleHandle, acquire_fence := 8, env := { sampleEnv with dup_fd := 10 } }]
      sampleLayer ∧
    (8 : Int) ∉ closedByLifetime fixed8 sampleFormats sampleFlags sampleS3D
      [{ handle := sampleHandle, acquire_fence := 7, env := { sampleEnv with dup_fd := 9 } },
       { handle := sampleHandle, acquire_fence := 8, env := { sampleEnv with dup_fd := 10 } }]
      sampleLayer := by
  decide

/-- C10, amended: the layer closes no acquire fence.  Over any sequence of
`SetLayerBuffer` calls followed by the destruction of the layer, the descriptors closed
are the ion descriptors replaced by the calls that pass validation, then the queued
release fences, then the ion descriptor held last; so a descriptor that is neither the
starting ion descriptor, nor one returned by `dup`, nor a queued release fence is never
closed, whatever acquire fences were passed.  A successful call closes only the previous
ion descriptor and records its acquire fence in the input buffer. -/
theorem acquire_fences_not_closed {F : Type} (fp : FloatOps F) (H : HalPixelFormat)
    (P : PrivFlags) (S : HalS3D) (calls : List BufferCall) (s : HWCLayer F) :
    closedByLifetime fp H P S calls s =
      (ionClosures calls s.ion_fd_).1 ++ s.release_fences_ ++ [(ionClosures calls s.ion_fd_).2] ∧
    (∀ a : Int, a ≠ s.ion_fd_ → a ∉ calls.map (fun c => c.env.dup_fd) →
      a ∉ s.release_fences_ → a ∉ closedByLifetime fp H P S calls s) ∧
    (∀ (handle : private_handle_t) (acquire_fence : Int) (env : BufferEnv),
      (SetLayerBuffer fp H P S (some handle) acquire_fence env s).1 = Error.None →
        (SetLayerBuffer fp H P S (some handle) acquire_fence env s).2.1 = [s.ion_fd_] ∧
        (SetLayerBuffer fp H P S (some handle) acquire_fence env
          s).2.2.layer_.input_buffer.acquire_fence_fd = acquire_fence) := by
  obtain ⟨h1, h2, h3⟩ := runBufferCalls_closes fp H P S calls s
  have hclosed : closedByLifetime fp H P S calls s =
      (ionClosures calls s.ion_fd_).1 ++ s.release_fences_ ++
        [(ionClosures calls s.ion_fd_).2] := by
    simp only [closedByLifetime, HWCLayer.destroy, closeReleaseFences_all, h1, h2, h3,
      List.append_assoc]
  refine ⟨hclosed, ?_, ?_⟩
  · intro a ha hdup hrel hmem
    rw [hclosed] at hmem
    simp only [List.mem_append, List.mem_singleton] at hmem
    rcases hmem with (hmem | hmem) | hmem
    · rcases ionClosures_mem calls _ a (Or.inl hmem) with h | h
      · exact ha h
      · exact hdup h
    · exact hrel hmem
    · rcases ionClosures_mem calls _ a (Or.inr hmem) with h | h
      · exact ha h
      · exact hdup h
  · intro handle acquire_fence env hnone
    by_cases h : acquire_fence = 0 ∨ handle.fd < 0
    · rw [(SetLayerBuffer_closes fp H P S handle acquire_fence env s).1 h] at hnone
      exact absurd hnone (by simp)
    · refine ⟨((SetLayerBuffer_closes fp H P S handle acquire_fence env s).2 h).1, ?_⟩
      rw [not_or] at h
      revert hnone
      simp only [SetLayerBuffer, h.1, h.2, if_false]
      split_ifs <;> simp

/-- C17, as stated, fails: on a layer whose validation flag has been cleared and whose
visible region is empty, `SetLayerVisibleRegion` with a one-rectangle region stores the
new region but leaves `geometry_changes_` at 0 and `needs_validate_` false. -/
theorem visible_region_change_not_recorded :
    convertRegion fixed8 { rects := [{ left := 0, top := 0, right := 16, bottom := 16 }] } ≠
      ({ sampleLayer with needs_validate_ := false } : HWCLayer Int).layer_.visible_regions ∧
    (SetLayerVisibleRegion fixed8
      { rects := [{ left := 0, top := 0, right := 16, bottom := 16 }] }
      { sampleLayer with needs_validate_ := false }).2.geometry_changes_ = 0 ∧
    (SetLayerVisibleRegion fixed8
      { rects := [{ left := 0, top := 0, right := 16, bottom := 16 }] }
      { sampleLayer with needs_validate_ := false }).2.needs_validate_ = false ∧
    (SetLayerVisibleRegion fixed8
      { rects := [{ left := 0, top := 0, right := 16, bottom := 16 }] }
      { sampleLayer with needs_validate_ := false }).2.layer_.visible_regions =
      [{ left := 0, top := 0, right := 4096, bottom := 4096 }] := by
  decide

/-- The comparison loop of `SetLayerSurfaceDamage` finds a difference between two lists
of equal length exactly when the lists differ. -/
theorem damageDiffers_iff {F : Type} [DecidableEq F] :
    ∀ (damage dirty : List (LayerRect F)), damage.length = dirty.length →
      (damageDiffers damage dirty = true ↔ damage ≠ dirty)
  | [], [], _ => by simp [damageDiffers]
  | [], _ :: _, h => by simp at h
  | _ :: _, [], h => by simp at h
  | a :: damage, b :: dirty, h => by
    have ih := damageDiffers_iff damage dirty (by simpa using h)
    by_cases hab : a = b
    · simp [damageDiffers, hab, ih]
    · simp [damageDiffers, hab]

/-- C17, amended: `SetLayerVisibleRegion` returns `Error::None`, stores the converted
rectangles as the visible region and changes nothing else, so `geometry_changes_` and
`needs_validate_` are as before whether or not the region changed.  It is a change of
the surface damage that is recorded: `SetLayerSurfaceDamage` sets `needs_validate_` when
the converted damage differs from the stored dirty region in length or in some
rectangle, and leaves it as it was otherwise. -/
theorem visible_region_not_tracked {F : Type} [DecidableEq F] (fp : FloatOps F)
    (region : hwc_region_t) (s : HWCLayer F) :
    SetLayerVisibleRegion fp region s =
      (Error.None,
       { s with layer_ := { s.layer_ with visible_regions := convertRegion fp region } }) ∧
    (SetLayerVisibleRegion fp region s).2.geometry_changes_ = s.geometry_changes_ ∧
    (SetLayerVisibleRegion fp region s).2.needs_validate_ = s.needs_validate_ ∧
    (SetLayerVisibleRegion fp region s).2.layer_.visible_regions = convertRegion fp region ∧
    (SetLayerSurfaceDamage fp region s).2.needs_validate_ =
      (decide (convertRegion fp region ≠ s.layer_.dirty_regions) || s.needs_validate_) ∧
    (SetLayerSurfaceDamage fp region s).2.layer_.dirty_regions = convertRegion fp region ∧
    (SetLayerSurfaceDamage fp region s).2.geometry_changes_ = s.geometry_changes_ := by
  refine ⟨rfl, rfl, rfl, rfl, ?_, rfl, rfl⟩
  simp only [SetLayerSurfaceDamage]
  by_cases hlen : s.layer_.dirty_regions.length = region.numRects
  · have hl : (convertRegion fp region).length = s.layer_.dirty_regions.length := by
      simp [convertRegion, hlen, hwc_region_t.numRects]
    have hiff := damageDiffers_iff (convertRegion fp region) s.layer_.dirty_regions hl
    by_cases hd : convertRegion fp region = s.layer_.dirty_regions
    · have : damageDiffers (convertRegion fp region) s.layer_.dirty_regions = false := by
        rw [Bool.eq_false_iff]
        intro h
        exact (hiff.mp h) hd
      rw [hd] at this
      simp [hlen, this, hd]
    · have : damageDiffers (convertRegion fp region) s.layer_.dirty_regions = true :=
        hiff.mpr hd
      simp [hlen, this, hd]
  · have hd : convertRegion fp region ≠ s.layer_.dirty_regions := by
      intro h
      apply hlen
      rw [← h]
      simp [convertRegion, hwc_region_t.numRects]
    simp [hlen, hd]

/-- C18: on a 32-bit rate `r` the loop of `RoundToStandardFPS` returns the standard rate
`s` when `r = s` or `r = s - 1` and `r` itself in every other case; for a standard rate
below `r` the unsigned difference wraps and is not below 2; hence the function is
idempotent, monotone, and its result is `r` or `r + 1`.  `RoundToStandardFPS` is this
loop on the truncated input. -/
theorem RoundToStandardFPS_characterised (r : Nat) (hr : r < 2 ^ 32) :
    (∀ s ∈ standard_fps, (r = s ∨ r + 1 = s) → roundLoop r standard_fps = s) ∧
    ((∀ s ∈ standard_fps, ¬ (r = s ∨ r + 1 = s)) → roundLoop r standard_fps = r) ∧
    (∀ s ∈ standard_fps, s < r → 2 ≤ usub32 s r) ∧
    roundLoop (roundLoop r standard_fps) standard_fps = roundLoop r standard_fps ∧
    (∀ r' : Nat, r ≤ r' → r' < 2 ^ 32 →
      roundLoop r standard_fps ≤ roundLoop r' standard_fps) ∧
    (r ≤ roundLoop r standard_fps ∧ roundLoop r standard_fps ≤ r + 1) ∧
    (∀ (F : Type) (fp : FloatOps F) (fps : F), frameRateOf fp fps = r →
      RoundToStandardFPS fp fps = roundLoop r standard_fps) := by
  have hval := roundLoop_standard r hr
  have hrange : r ≤ roundLoop r standard_fps ∧ roundLoop r standard_fps ≤ r + 1 := by
    rw [hval]; split_ifs <;> omega
  have hlt : roundLoop r standard_fps < 2 ^ 32 := by
    rw [hval]
    norm_num at hr ⊢
    split_ifs <;> omega
  refine ⟨?_, ?_, ?_, ?_, ?_, hrange, ?_⟩
  · intro s hs h
    rw [hval]
    simp only [standard_fps, List.mem_cons, List.mem_singleton, List.not_mem_nil,
      or_false] at hs
    split_ifs <;> omega
  · intro h
    rw [hval]
    have h24 := h 24 (by simp [standard_fps])
    have h30 := h 30 (by simp [standard_fps])
    have h48 := h 48 (by simp [standard_fps])
    have h60 := h 60 (by simp [standard_fps])
    split_ifs <;> omega
  · intro s hs hsr
    simp only [standard_fps, List.mem_cons, List.mem_singleton, List.not_mem_nil,
      or_false] at hs
    norm_num at hr
    simp only [usub32]
    norm_num
    omega
  · rw [roundLoop_standard _ hlt, hval]
    split_ifs <;> omega
  · intro r' hle hr'
    rw [hval, roundLoop_standard r' hr']
    split_ifs <;> omega
  · intro F fp fps h
    simp [RoundToStandardFPS, h]

/-- C18 at rates 29, 30 and 31: 29 and 30 give 30, and 31 is returned unchanged. -/
theorem RoundToStandardFPS_characterised_witness :
    (29 : Nat) < 2 ^ 32 ∧ roundLoop 29 standard_fps = 30 ∧ roundLoop 30 standard_fps = 30 ∧
    roundLoop 31 standard_fps = 31 ∧ 2 ≤ usub32 30 31 :=
  ⟨by decide,
   (RoundToStandardFPS_characterised 29 (by decide)).1 30 (by decide) (Or.inr rfl),
   (RoundToStandardFPS_characterised 30 (by decide)).1 30 (by decide) (Or.inl rfl),
   by decide,
   (RoundToStandardFPS_characterised 31 (by decide)).2.2.1 30 (by decide) (by decide)⟩

/-- C19: the transform table.  None is the all-clear transform; FlipH, FlipV and Rotate90
each set one field; Rotate180, FlipHRotate90, FlipVRotate90 and Rotate270 are the
field-wise unions named; the table is injective, so on a layer holding the transform
last set, setting a different one raises `kTransform` and stores the new value. -/
theorem transform_table {F : Type} [DecidableEq F] (fp : FloatOps F)
    (hrot : fp.FLOAT 0 ≠ fp.FLOAT 90) (G : GeometryChanges) (s : HWCLayer F) :
    layerTransformOf fp Transform.None =
      { rotation := fp.FLOAT 0, flip_horizontal := false, flip_vertical := false } ∧
    layerTransformOf fp Transform.FlipH =
      { rotation := fp.FLOAT 0, flip_horizontal := true, flip_vertical := false } ∧
    layerTransformOf fp Transform.FlipV =
      { rotation := fp.FLOAT 0, flip_horizontal := false, flip_vertical := true } ∧
    layerTransformOf fp Transform.Rotate90 =
      { rotation := fp.FLOAT 90, flip_horizontal := false, flip_vertical := false } ∧
    layerTransformOf fp Transform.Rotate180 =
      LayerTransform.union fp (layerTransformOf fp Transform.FlipH)
        (layerTransformOf fp Transform.FlipV) ∧
    layerTransformOf fp Transform.FlipHRotate90 =
      LayerTransform.union fp (layerTransformOf fp Transform.FlipH)
        (layerTransformOf fp Transform.Rotate90) ∧
    layerTransformOf fp Transform.FlipVRotate90 =
      LayerTransform.union fp (layerTransformOf fp Transform.FlipV)
        (layerTransformOf fp Transform.Rotate90) ∧
    layerTransformOf fp Transform.Rotate270 =
      LayerTransform.union fp (layerTransformOf fp Transform.Rotate90)
        (layerTransformOf fp Transform.Rotate180) ∧
    Function.Injective (layerTransformOf fp) ∧
    (∀ last next : Transform, next ≠ last → s.layer_.transform = layerTransformOf fp last →
      (SetLayerTransform fp G next s).2.geometry_changes_ =
        s.geometry_changes_ ||| G.kTransform ∧
      (SetLayerTransform fp G next s).2.layer_.transform = layerTransformOf fp next) := by
  have hrot' : fp.FLOAT 90 ≠ fp.FLOAT 0 := fun h => hrot h.symm
  have hinj : Function.Injective (layerTransformOf fp) := by
    intro x y hxy
    cases x <;> cases y <;> simp_all [layerTransformOf]
  refine ⟨rfl, rfl, rfl, rfl, ?_, ?_, ?_, ?_, hinj, ?_⟩
  · simp [layerTransformOf, LayerTransform.union]
  · simp [layerTransformOf, LayerTransform.union]
  · simp [layerTransformOf, LayerTransform.union]
  · simp [layerTransformOf, LayerTransform.union, hrot']
  · intro last next hne hlast
    have hdiff : s.layer_.transform ≠ layerTransformOf fp next := by
      rw [hlast]
      exact fun h => hne (hinj h).symm
    simp [SetLayerTransform, hdiff]

/-- C19 in the fixed-point arithmetic: the rotations 0 and 90 differ, Rotate270 is
rotation 90 with both flips, and on a layer that holds FlipH and has its change mask
cleared, setting Rotate180 raises `kTransform`. -/
theorem transform_table_witness :
    fixed8.FLOAT 0 ≠ fixed8.FLOAT 90 ∧
    layerTransformOf fixed8 Transform.Rotate270 =
      LayerTransform.union fixed8 (layerTransformOf fixed8 Transform.Rotate90)
        (layerTransformOf fixed8 Transform.Rotate180) ∧
    (SetLayerTransform fixed8 sampleGeometry Transform.Rotate180
      { (SetLayerTransform fixed8 sampleGeometry Transform.FlipH sampleLayer).2 with
        geometry_changes_ := 0 }).2.geometry_changes_ = 0x20 :=
  have h : fixed8.FLOAT 0 ≠ fixed8.FLOAT 90 := by decide
  ⟨h, (transform_table fixed8 h sampleGeometry sampleLayer).2.2.2.2.2.2.2.1, by decide⟩

/-- With 8-bit components the shifts of `GetUint32Color` do not overflow and the bitwise
or is a sum. -/
theorem GetUint32Color_sum (c : hwc_color_t) (ha : c.a < 256) (hr : c.r < 256)
    (hg : c.g < 256) (hb : c.b < 256) :
    GetUint32Color c = c.a * 2 ^ 24 + c.r * 2 ^ 16 + c.g * 2 ^ 8 + c.b := by
  have e1 : c.a % 2 ^ 32 = c.a := Nat.mod_eq_of_lt (by omega)
  have e2 : c.r % 2 ^ 32 = c.r := Nat.mod_eq_of_lt (by omega)
  have e3 : c.g % 2 ^ 32 = c.g := Nat.mod_eq_of_lt (by omega)
  have e4 : c.b % 2 ^ 32 = c.b := Nat.mod_eq_of_lt (by omega)
  have f1 : c.a <<< 24 % 2 ^ 32 = 2 ^ 24 * c.a := by
    rw [Nat.shiftLeft_eq, Nat.mul_comm]; exact Nat.mod_eq_of_lt (by omega)
  have f2 : c.r <<< 16 % 2 ^ 32 = 2 ^ 16 * c.r := by
    rw [Nat.shiftLeft_eq, Nat.mul_comm]; exact Nat.mod_eq_of_lt (by omega)
  have f3 : c.g <<< 8 % 2 ^ 32 = 2 ^ 8 * c.g := by
    rw [Nat.shiftLeft_eq, Nat.mul_comm]; exact Nat.mod_eq_of_lt (by omega)
  have g1 : 2 ^ 8 * c.g ||| c.b = 2 ^ 8 * c.g + c.b :=
    (Nat.mul_add_lt_is_or (by omega) c.g).symm
  have g2 : 2 ^ 16 * c.r ||| (2 ^ 8 * c.g + c.b) = 2 ^ 16 * c.r + (2 ^ 8 * c.g + c.b) :=
    (Nat.mul_add_lt_is_or (by omega) c.r).symm
  have g3 : 2 ^ 24 * c.a ||| (2 ^ 16 * c.r + (2 ^ 8 * c.g + c.b)) =
      2 ^ 24 * c.a + (2 ^ 16 * c.r + (2 ^ 8 * c.g + c.b)) :=
    (Nat.mul_add_lt_is_or (by omega) c.a).symm
  simp only [GetUint32Color, e1, e2, e3, e4, f1, f2, f3]
  rw [Nat.lor_assoc, Nat.lor_assoc, g1, g2, g3]
  omega

/-- C20: for 8-bit components `GetUint32Color` is `a*2^24 + r*2^16 + g*2^8 + b`; each
component is read back from its byte of the word; two colors with the same word are
equal; and `SetLayerColor` stores this word as the solid-fill color, sets the input
buffer format to `kFormatARGB8888` and returns `Error::None`. -/
theorem GetUint32Color_packs (c : hwc_color_t) (ha : c.a < 256) (hr : c.r < 256)
    (hg : c.g < 256) (hb : c.b < 256) :
    GetUint32Color c = c.a * 2 ^ 24 + c.r * 2 ^ 16 + c.g * 2 ^ 8 + c.b ∧
    (GetUint32Color c >>> 24) &&& 0xFF = c.a ∧
    (GetUint32Color c >>> 16) &&& 0xFF = c.r ∧
    (GetUint32Color c >>> 8) &&& 0xFF = c.g ∧
    GetUint32Color c &&& 0xFF = c.b ∧
    (∀ c' : hwc_color_t, c'.a < 256 → c'.r < 256 → c'.g < 256 → c'.b < 256 →
      GetUint32Color c' = GetUint32Color c → c' = c) ∧
    (∀ (F : Type) (s : HWCLayer F),
      (SetLayerColor c s).1 = Error.None ∧
      (SetLayerColor c s).2.layer_.solid_fill_color = GetUint32Color c ∧
      (SetLayerColor c s).2.layer_.input_buffer.format = LayerBufferFormat.kFormatARGB8888) := by
  have hsum := GetUint32Color_sum c ha hr hg hb
  have hmask : ∀ x : Nat, x &&& 0xFF = x % 256 := by
    intro x
    have := Nat.and_pow_two_sub_one_eq_mod x 8
    simpa using this
  refine ⟨hsum, ?_, ?_, ?_, ?_, ?_, ?_⟩
  · rw [hmask, Nat.shiftRight_eq_div_pow, hsum]; omega
  · rw [hmask, Nat.shiftRight_eq_div_pow, hsum]; omega
  · rw [hmask, Nat.shiftRight_eq_div_pow, hsum]; omega
  · rw [hmask, hsum]; omega
  · intro c' ha' hr' hg' hb' h
    rw [hsum, GetUint32Color_sum c' ha' hr' hg' hb'] at h
    rcases c with ⟨r, g, b, a⟩
    rcases c' with ⟨r', g', b', a'⟩
    simp only at ha hr hg hb ha' hr' hg' hb' h
    have h1 : a' = a := by omega
    have h2 : r' = r := by omega
    have h3 : g' = g := by omega
    have h4 : b' = b := by omega
    rw [h1, h2, h3, h4]
  · intro F s
    exact ⟨rfl, rfl, rfl⟩

/-- C20 at the color a = 0x12, r = 0x34, g = 0x56, b = 0x78: the word is 0x12345678. -/
theorem GetUint32Color_packs_witness :
    GetUint32Color { a := 0x12, r := 0x34, g := 0x56, b := 0x78 } = 0x12345678 ∧
    (GetUint32Color { a := 0x12, r := 0x34, g := 0x56, b := 0x78 } >>> 16) &&& 0xFF = 0x34 ∧
    (SetLayerColor { a := 0x12, r := 0x34, g := 0x56, b := 0x78 }
      sampleLayer).2.layer_.solid_fill_color = 0x12345678 :=
  have t := GetUint32Color_packs { a := 0x12, r := 0x34, g := 0x56, b := 0x78 }
    (by decide) (by decide) (by decide) (by decide)
  ⟨by decide, t.2.2.1, by decide⟩

/-- C21, as stated, fails: on a layer whose last successful request was Client,
`SetLayerCompositionType(Invalid)` returns BadParameter and the recorded request is now
Invalid. -/
theorem failed_request_is_recorded :
    (SetLayerCompositionType Composition.Client sampleLayer).1 = Error.None ∧
    (SetLayerCompositionType Composition.Client sampleLayer).2.client_requested_ =
      Composition.Client ∧
    (SetLayerCompositionType Composition.Invalid
      (SetLayerCompositionType Composition.Client sampleLayer).2).1 = Error.BadParameter ∧
    (SetLayerCompositionType Composition.Invalid
      (SetLayerCompositionType Composition.Client sampleLayer).2).2.client_requested_ =
      Composition.Invalid := by
  decide

/-- C21, amended: `SetLayerCompositionType` returns `Error::None` for Client, Device,
SolidColor and Cursor, BadParameter for Invalid and Unsupported for every other value;
in every case, also when it returns an error, it records the type passed as the
client-requested composition and changes no other member, so the device-selected
composition type is never modified. -/
theorem SetLayerCompositionType_records {F : Type} (type : Composition) (s : HWCLayer F) :
    (SetLayerCompositionType type s).2 = { s with client_requested_ := type } ∧
    (SetLayerCompositionType type s).2.client_requested_ = type ∧
    (SetLayerCompositionType type s).2.device_selected_ = s.device_selected_ ∧
    (SetLayerCompositionType type s).1 =
      (if type = Composition.Client ∨ type = Composition.Device ∨
          type = Composition.SolidColor ∨ type = Composition.Cursor then Error.None
       else if type = Composition.Invalid then Error.BadParameter
       else Error.Unsupported) ∧
    (SetLayerCompositionType Composition.Sideband s).1 = Error.Unsupported ∧
    (∀ raw : Int, (SetLayerCompositionType (Composition.other raw) s).1 = Error.Unsupported) := by
  refine ⟨?_, ?_, ?_, ?_, rfl, fun _ => rfl⟩ <;>
    cases type <;> simp [SetLayerCompositionType]

end sdm

namespace overlay

/-- One call of a cooperative sequence keeps "secured implies valid". -/
theorem stepCall_keeps_secured_valid (P : Platform) (c : OvCall) (calls : List OvCall)
    (m : OvMem) (hco : Cooperative P (c :: calls) m)
    (hinv : m.mSecured = true → OvMem.valid P m = true) :
    (stepCall P c m).mSecured = true → OvMem.valid P (stepCall P c m) = true := by
  obtain ⟨hc, -⟩ := hco
  cases c with
  | «open» numbufs bufSz isSecure alloc secure =>
    rcases alloc with _ | data
    · cases isSecure <;>
        simpa [stepCall, OvMem.open, OvMem.openRequest, OvMem.valid] using hinv
    · obtain ⟨hfd, hbase⟩ := hc data rfl
      intro _
      cases isSecure <;> cases secure <;>
        simp [stepCall, OvMem.open, OvMem.openRequest, OvMem.valid, OvMem.setSecure, hfd, hbase]
  | close secure free_ret =>
    simp only [stepCall, OvMem.close]
    by_cases hv : OvMem.valid P m = true
    · rcases hs : m.mSecured with _ | _
      · by_cases hf : free_ret = 0 <;> simp [hv, hs, hf]
      · cases secure
        · have hf : free_ret ≠ 0 := fun h => hc ⟨hs, rfl, h⟩
          simp [hv, hs, hf, OvMem.setSecure]
        · by_cases hf : free_ret = 0 <;> simp [hv, hs, hf, OvMem.setSecure]
        · by_cases hf : free_ret = 0 <;> simp [hv, hs, hf, OvMem.setSecure]
    · simpa [hv] using hinv
  | setSecure enable secure =>
    cases secure
    · simpa [stepCall, OvMem.setSecure] using hinv
    · simp [stepCall, OvMem.setSecure]
    · cases enable
      · simp [stepCall, OvMem.setSecure]
      · intro _
        simpa [stepCall, OvMem.setSecure, OvMem.valid] using hc rfl rfl

/-- C11, as stated, fails: on a newly constructed handle a `setSecure(true)` call that
the display controller accepts sets the secure flag although the handle is not valid.
The flag also outlives the allocation when a secure open is followed by a close during
which the framebuffer device cannot be opened. -/
theorem secured_without_open :
    (runCalls samplePlatform [OvCall.setSecure true SecureOutcome.accepted]
      (OvMem.construct samplePlatform 0)).mSecured = true ∧
    OvMem.valid samplePlatform
      (runCalls samplePlatform [OvCall.setSecure true SecureOutcome.accepted]
        (OvMem.construct samplePlatform 0)) = false ∧
    (runCalls samplePlatform
      [OvCall.open 2 4096 true (some sampleReply) SecureOutcome.accepted,
       OvCall.close SecureOutcome.devOpenFailed 0]
      (OvMem.construct samplePlatform 0)).mSecured = true ∧
    OvMem.valid samplePlatform
      (runCalls samplePlatform
        [OvCall.open 2 4096 true (some sampleReply) SecureOutcome.accepted,
         OvCall.close SecureOutcome.devOpenFailed 0]
        (OvMem.construct samplePlatform 0)) = false := by
  decide

/-- C11, amended: in every state reached from a newly constructed handle by a sequence
of open, close and setSecure calls in which every successful allocation yields a
descriptor other than -1 and an address other than `MAP_FAILED`, the display controller
accepts a client's `setSecure(true)` only on a valid handle, and the framebuffer device
can be opened whenever close unsecures the buffer it frees, the secure flag is true
only while the handle is valid. -/
theorem secured_implies_valid (P : Platform) (junk : Nat) (calls : List OvCall)
    (hco : Cooperative P calls (OvMem.construct P junk)) :
    (runCalls P calls (OvMem.construct P junk)).mSecured = true →
      OvMem.valid P (runCalls P calls (OvMem.construct P junk)) = true := by
  have gen : ∀ (calls : List OvCall) (m : OvMem), Cooperative P calls m →
      (m.mSecured = true → OvMem.valid P m = true) →
      (runCalls P calls m).mSecured = true → OvMem.valid P (runCalls P calls m) = true := by
    intro calls
    induction calls with
    | nil => intro m _ hinv; simpa [runCalls] using hinv
    | cons c calls ih =>
      intro m hco hinv
      simp only [runCalls]
      exact ih _ hco.2 (stepCall_keeps_secured_valid P c calls m hco hinv)
  exact gen calls _ hco (by simp [OvMem.construct])

/-- C11 amended, on a run: a secure open that succeeds, a rejected `setSecure(true)`, an
accepted one, then a close that unsecures and frees.  The run is cooperative and ends
not secured. -/
theorem secured_implies_valid_witness :
    Cooperative samplePlatform
      [OvCall.open 2 4096 true (some sampleReply) SecureOutcome.accepted,
       OvCall.setSecure true SecureOutcome.rejected,
       OvCall.setSecure true SecureOutcome.accepted,
       OvCall.close SecureOutcome.accepted 0]
      (OvMem.construct samplePlatform 0) ∧
    ((runCalls samplePlatform
      [OvCall.open 2 4096 true (some sampleReply) SecureOutcome.accepted,
       OvCall.setSecure true SecureOutcome.rejected,
       OvCall.setSecure true SecureOutcome.accepted,
       OvCall.close SecureOutcome.accepted 0]
      (OvMem.construct samplePlatform 0)).mSecured = true →
     OvMem.valid samplePlatform (runCalls samplePlatform
      [OvCall.open 2 4096 true (some sampleReply) SecureOutcome.accepted,
       OvCall.setSecure true SecureOutcome.rejected,
       OvCall.setSecure true SecureOutcome.accepted,
       OvCall.close SecureOutcome.accepted 0]
      (OvMem.construct samplePlatform 0)) = true) :=
  have hco : Cooperative samplePlatform
      [OvCall.open 2 4096 true (some sampleReply) SecureOutcome.accepted,
       OvCall.setSecure true SecureOutcome.rejected,
       OvCall.setSecure true SecureOutcome.accepted,
       OvCall.close SecureOutcome.accepted 0]
      (OvMem.construct samplePlatform 0) := by
    refine ⟨?_, ?_, ?_, ?_, trivial⟩
    · intro data h
      cases h
      decide
    · intro _ h; cases h
    · intro _ _; decide
    · decide
  ⟨hco, secured_implies_valid samplePlatform 0 _ hco⟩

/-- C12, as stated, fails: on a newly constructed handle `open(2, 4096, false)` with the
allocator reporting failure returns false but leaves the requested size 4096, the
aligned size 4096 and the buffer count 2 in the handle. -/
theorem failed_open_overwrites_sizes :
    OvMem.open samplePlatform 2 4096 false none SecureOutcome.accepted
        (OvMem.construct samplePlatform 0) =
      (false, { OvMem.construct samplePlatform 0 with
                mBufSz := 4096, mBufSzAligned := 4096, mNumBuffers := 2 }) ∧
    OvMem.bufSz (OvMem.open samplePlatform 2 4096 false none SecureOutcome.accepted
        (OvMem.construct samplePlatform 0)).2 ≠
      OvMem.bufSz (OvMem.construct samplePlatform 0) ∧
    OvMem.numBufs (OvMem.open samplePlatform 2 4096 false none SecureOutcome.accepted
        (OvMem.construct samplePlatform 0)).2 ≠
      OvMem.numBufs (OvMem.construct samplePlatform 0) := by
  decide

/-- C12, amended: when the allocator reports failure, `open` returns false and leaves
the descriptor, the base address, the allocation kind and the secure flag as they were,
so a handle is valid after the call exactly when it was before; the requested size, the
aligned size and the buffer count hold the values of the failed request. -/
theorem failed_open_keeps_allocation (P : Platform) (numbufs bufSz : Nat) (isSecure : Bool)
    (secure : SecureOutcome) (m : OvMem) :
    (OvMem.open P numbufs bufSz isSecure none secure m).1 = false ∧
    (OvMem.open P numbufs bufSz isSecure none secure m).2.mFd = m.mFd ∧
    (OvMem.open P numbufs bufSz isSecure none secure m).2.mBaseAddr = m.mBaseAddr ∧
    (OvMem.open P numbufs bufSz isSecure none secure m).2.mAllocType = m.mAllocType ∧
    (OvMem.open P numbufs bufSz isSecure none secure m).2.mSecured = m.mSecured ∧
    OvMem.valid P (OvMem.open P numbufs bufSz isSecure none secure m).2 = OvMem.valid P m ∧
    (OvMem.open P numbufs bufSz isSecure none secure m).2.mBufSz = bufSz ∧
    (OvMem.open P numbufs bufSz isSecure none secure m).2.mNumBuffers = numbufs ∧
    (OvMem.open P numbufs bufSz isSecure none secure m).2.mBufSzAligned =
      (if isSecure then align bufSz SIZE_1M % 2 ^ 32 else bufSz) := by
  cases isSecure <;> simp [OvMem.open, OvMem.openRequest, OvMem.valid]

/-- C13, as stated, fails: a secure open whose allocation succeeds and whose secure call
is rejected by the display controller returns true; the handle is valid and not
secured. -/
theorem secure_failure_not_reported :
    (OvMem.open samplePlatform 2 4096 true (some sampleReply) SecureOutcome.rejected
      (OvMem.construct samplePlatform 0)).1 = true ∧
    (OvMem.open samplePlatform 2 4096 true (some sampleReply) SecureOutcome.rejected
      (OvMem.construct samplePlatform 0)).2.mSecured = false ∧
    OvMem.valid samplePlatform
      (OvMem.open samplePlatform 2 4096 true (some sampleReply) SecureOutcome.rejected
        (OvMem.construct samplePlatform 0)).2 = true := by
  decide

/-- C13, amended: `open` returns true whenever the allocation succeeds, whatever happens
in the secure call of a secure open.  A failure of that call shows only in the secure
flag: after a secure open the flag is true when the call is accepted, false when it is
rejected, and as it was before when the framebuffer device cannot be opened; a
non-secure open leaves the flag as it was. -/
theorem open_reports_allocation_only (P : Platform) (numbufs bufSz : Nat) (isSecure : Bool)
    (data : AllocReply) (secure : SecureOutcome) (m : OvMem) :
    (OvMem.open P numbufs bufSz isSecure (some data) secure m).1 = true ∧
    (OvMem.open P numbufs bufSz isSecure (some data) secure m).2.mSecured =
      (if isSecure then
        (match secure with
         | SecureOutcome.accepted => true
         | SecureOutcome.rejected => false
         | SecureOutcome.devOpenFailed => m.mSecured)
       else m.mSecured) ∧
    (OvMem.open P numbufs bufSz isSecure (some data) secure m).2.mFd = data.fd ∧
    (OvMem.open P numbufs bufSz isSecure (some data) secure m).2.mBaseAddr = data.base := by
  cases isSecure <;> cases secure <;>
    simp [OvMem.open, OvMem.openRequest, OvMem.setSecure]

/-- C14, as stated, fails: on a secured handle a `setSecure(true)` call that the display
controller rejects returns false and clears the secure flag. -/
theorem rejected_setSecure_clears_flag :
    (OvMem.open samplePlatform 2 4096 true (some sampleReply) SecureOutcome.accepted
      (OvMem.construct samplePlatform 0)).2.mSecured = true ∧
    (OvMem.setSecure true SecureOutcome.rejected
      (OvMem.open samplePlatform 2 4096 true (some sampleReply) SecureOutcome.accepted
        (OvMem.construct samplePlatform 0)).2).1 = false ∧
    (OvMem.setSecure true SecureOutcome.rejected
      (OvMem.open samplePlatform 2 4096 true (some sampleReply) SecureOutcome.accepted
        (OvMem.construct samplePlatform 0)).2).2.mSecured = false := by
  decide

/-- C14, amended: when the framebuffer device cannot be opened, `setSecure(enable)`
returns false and leaves every member as it was; when the display controller rejects
the secure call it returns false and clears the secure flag, leaving every other member
as it was; when the call is accepted it returns true, sets the secure flag to `enable`
and changes no other member. -/
theorem setSecure_outcomes (enable : Bool) (m : OvMem) :
    OvMem.setSecure enable SecureOutcome.devOpenFailed m = (false, m) ∧
    OvMem.setSecure enable SecureOutcome.rejected m = (false, { m with mSecured := false }) ∧
    OvMem.setSecure enable SecureOutcome.accepted m = (true, { m with mSecured := enable }) ∧
    (∀ outcome : SecureOutcome,
      (OvMem.setSecure enable outcome m).2.mFd = m.mFd ∧
      (OvMem.setSecure enable outcome m).2.mBaseAddr = m.mBaseAddr ∧
      (OvMem.setSecure enable outcome m).2.mAllocType = m.mAllocType ∧
      (OvMem.setSecure enable outcome m).2.mBufSz = m.mBufSz ∧
      (OvMem.setSecure enable outcome m).2.mBufSzAligned = m.mBufSzAligned ∧
      (OvMem.setSecure enable outcome m).2.mNumBuffers = m.mNumBuffers) := by
  refine ⟨rfl, rfl, rfl, ?_⟩
  intro outcome
  cases outcome <;> simp [OvMem.setSecure]

/-- What `close` does, case by case: a handle that is not valid is left alone and true is
returned; on a valid handle whose buffer the allocator frees, true is returned and the
descriptor, the address, the kind, both sizes and the count are reset, the secure flag
being what the `setSecure(false)` call left. -/
theorem close_cases (P : Platform) (secure : SecureOutcome) (free_ret : Int) (m : OvMem) :
    (OvMem.valid P m = false → OvMem.close P secure free_ret m = (true, m)) ∧
    (OvMem.valid P m = true → free_ret = 0 →
      OvMem.close P secure free_ret m =
        (true, { mFd := -1, mBaseAddr := P.MAP_FAILED, mAllocType := 0, mBufSz := 0,
                 mNumBuffers := 0, mBufSzAligned := 0,
                 mSecured := m.mSecured && decide (secure = SecureOutcome.devOpenFailed) })) ∧
    (OvMem.valid P m = true → free_ret ≠ 0 → (OvMem.close P secure free_ret m).1 = false) := by
  refine ⟨?_, ?_, ?_⟩
  · intro hv
    simp [OvMem.close, hv]
  · intro hv hf
    rcases hs : m.mSecured with _ | _ <;> cases secure <;>
      simp [OvMem.close, hv, hf, hs, OvMem.setSecure]
  · intro hv hf
    simp [OvMem.close, hv, hf]

/-- C15 at the failing input: a handle opened secure is valid and secured; `close`, with
the framebuffer device failing to open and the allocator freeing the buffer, returns
true and resets the descriptor, the address, the kind, both sizes and the count, but
leaves the secure flag true on the now invalid handle. -/
theorem close_leaves_secure_flag :
    OvMem.open samplePlatform 2 4096 true (some sampleReply) SecureOutcome.accepted
        (OvMem.construct samplePlatform 0) =
      (true, { mFd := 12, mBaseAddr := 0x40000000, mAllocType := 1, mBufSz := 4096,
               mNumBuffers := 2, mBufSzAligned := 0x100000, mSecured := true }) ∧
    OvMem.valid samplePlatform
      { mFd := 12, mBaseAddr := 0x40000000, mAllocType := 1, mBufSz := 4096,
        mNumBuffers := 2, mBufSzAligned := 0x100000, mSecured := true } = true ∧
    OvMem.close samplePlatform SecureOutcome.devOpenFailed 0
        { mFd := 12, mBaseAddr := 0x40000000, mAllocType := 1, mBufSz := 4096,
          mNumBuffers := 2, mBufSzAligned := 0x100000, mSecured := true } =
      (true, { mFd := -1, mBaseAddr := -1, mAllocType := 0, mBufSz := 0,
               mNumBuffers := 0, mBufSzAligned := 0, mSecured := true }) ∧
    OvMem.valid samplePlatform
      { mFd := -1, mBaseAddr := -1, mAllocType := 0, mBufSz := 0,
        mNumBuffers := 0, mBufSzAligned := 0, mSecured := true } = false := by
  decide

/-- `align` gives the least multiple of a positive `a` that is not below `value`. -/
theorem align_least (value a : Nat) (ha : 0 < a) :
    a ∣ align value a ∧ value ≤ align value a ∧
    (∀ y : Nat, a ∣ y → value ≤ y → align value a ≤ y) := by
  unfold align
  refine ⟨Nat.dvd_mul_left _ _, ?_, ?_⟩
  · have h1 := Nat.div_add_mod (value + (a - 1)) a
    have h2 := Nat.mod_lt (value + (a - 1)) ha
    have h3 : a * ((value + (a - 1)) / a) = (value + (a - 1)) / a * a := Nat.mul_comm _ _
    omega
  · rintro y ⟨k, rfl⟩ hle
    rw [Nat.mul_comm a k]
    apply Nat.mul_le_mul_right
    apply Nat.le_of_lt_succ
    rw [Nat.div_lt_iff_lt_mul ha]
    have hk : k.succ * a = a * k + a := by rw [Nat.succ_mul, Nat.mul_comm]
    rw [hk]
    omega

/-- C16: for non-zero `numbufs` and `bufSz` whose aligned total fits in 32 bits, a
secure open asks the allocator for alignment 0x100000 and a per-buffer size that is the
least multiple of 0x100000 not below `bufSz`, a non-secure open for page alignment and a
per-buffer size `bufSz`; in both modes the size requested is `numbufs` times the
per-buffer size; and after a successful open `bufSz()` is the requested `bufSz` and
`numBufs()` is `numbufs`. -/
theorem open_sizes (P : Platform) (numbufs bufSz : Nat) (m : OvMem)
    (hn : numbufs ≠ 0) (_hb : bufSz ≠ 0) (hfit : numbufs * align bufSz SIZE_1M < 2 ^ 32) :
    ((OvMem.openRequest P numbufs bufSz true m).2.align = 0x100000 ∧
     (OvMem.openRequest P numbufs bufSz true m).1.mBufSzAligned = align bufSz SIZE_1M ∧
     0x100000 ∣ (OvMem.openRequest P numbufs bufSz true m).1.mBufSzAligned ∧
     bufSz ≤ (OvMem.openRequest P numbufs bufSz true m).1.mBufSzAligned ∧
     (∀ y : Nat, 0x100000 ∣ y → bufSz ≤ y →
       (OvMem.openRequest P numbufs bufSz true m).1.mBufSzAligned ≤ y) ∧
     (OvMem.openRequest P numbufs bufSz true m).2.size =
       numbufs * (OvMem.openRequest P numbufs bufSz true m).1.mBufSzAligned) ∧
    ((OvMem.openRequest P numbufs bufSz false m).2.align = P.pagesize ∧
     (OvMem.openRequest P numbufs bufSz false m).1.mBufSzAligned = bufSz ∧
     (OvMem.openRequest P numbufs bufSz false m).2.size = numbufs * bufSz) ∧
    (∀ (isSecure : Bool) (data : AllocReply) (secure : SecureOutcome),
      (OvMem.open P numbufs bufSz isSecure (some data) secure m).1 = true ∧
      OvMem.bufSz (OvMem.open P numbufs bufSz isSecure (some data) secure m).2 = bufSz ∧
      OvMem.numBufs (OvMem.open P numbufs bufSz isSecure (some data) secure m).2 = numbufs) := by
  obtain ⟨hdvd, hle, hleast⟩ := align_least bufSz SIZE_1M (by decide)
  have hpos : 0 < numbufs := Nat.pos_of_ne_zero hn
  have hal : align bufSz SIZE_1M < 2 ^ 32 :=
    lt_of_le_of_lt (Nat.le_mul_of_pos_left _ hpos) hfit
  have hraw : numbufs * bufSz < 2 ^ 32 :=
    lt_of_le_of_lt (Nat.mul_le_mul_left _ hle) hfit
  have hmod : align bufSz SIZE_1M % 2 ^ 32 = align bufSz SIZE_1M := Nat.mod_eq_of_lt hal
  have hsec : (OvMem.openRequest P numbufs bufSz true m).1.mBufSzAligned =
      align bufSz SIZE_1M := by
    show align bufSz SIZE_1M % 2 ^ 32 = align bufSz SIZE_1M
    exact hmod
  have hM : (0x100000 : Nat) = SIZE_1M := rfl
  refine ⟨⟨rfl, hsec, ?_, ?_, ?_, ?_⟩, ⟨rfl, rfl, ?_⟩, ?_⟩
  · rw [hsec, hM]; exact hdvd
  · rw [hsec]; exact hle
  · intro y hy hby
    rw [hsec]
    exact hleast y (by rw [← hM]; exact hy) hby
  · rw [hsec]
    show align bufSz SIZE_1M % 2 ^ 32 * numbufs % 2 ^ 32 = numbufs * align bufSz SIZE_1M
    rw [hmod, Nat.mul_comm, Nat.mod_eq_of_lt hfit]
  · show bufSz * numbufs % 2 ^ 32 = numbufs * bufSz
    rw [Nat.mul_comm, Nat.mod_eq_of_lt hraw]
  · intro isSecure data secure
    cases isSecure <;> cases secure <;>
      simp [OvMem.open, OvMem.openRequest, OvMem.setSecure, OvMem.bufSz, OvMem.numBufs]

/-- C16 for two buffers of 4097 bytes: the secure request is 1 MB aligned, 1 MB per
buffer and 2 MB in all; the non-secure request is page aligned and 8194 bytes in all. -/
theorem open_sizes_witness :
    2 * align 4097 SIZE_1M < 2 ^ 32 ∧
    (OvMem.openRequest samplePlatform 2 4097 true (OvMem.construct samplePlatform 0)).2.align
      = 0x100000 ∧
    (OvMem.openRequest samplePlatform 2 4097 true
      (OvMem.construct samplePlatform 0)).1.mBufSzAligned = 0x100000 ∧
    (OvMem.openRequest samplePlatform 2 4097 true (OvMem.construct samplePlatform 0)).2.size
      = 0x200000 ∧
    (OvMem.openRequest samplePlatform 2 4097 false (OvMem.construct samplePlatform 0)).2.size
      = 2 * 4097 :=
  have hfit : 2 * align 4097 SIZE_1M < 2 ^ 32 := by decide
  have t := open_sizes samplePlatform 2 4097 (OvMem.construct samplePlatform 0)
    (by decide) (by decide) hfit
  ⟨hfit, t.1.1, by decide, by decide, t.2.1.2.2⟩

/-- Members that agree on the descriptor, the address, the kind, the aligned size and
the count are in step with the same allocation. -/
theorem Tracked.of_same_allocation (m m' : OvMem) (live : Option LiveAllocation)
    (hsame : m'.mFd = m.mFd ∧ m'.mBaseAddr = m.mBaseAddr ∧ m'.mAllocType = m.mAllocType ∧
      m'.mBufSzAligned = m.mBufSzAligned ∧ m'.mNumBuffers = m.mNumBuffers)
    (h : Tracked m live) : Tracked m' live := by
  obtain ⟨h1, h2, h3, h4, h5⟩ := hsame
  unfold Tracked
  rw [h1, h2, h3, h4, h5]
  exact h

/-- One call keeps the members and the allocation held in step. -/
theorem trackCall_tracked (P : Platform) (c : OvCall) (m : OvMem)
    (live : Option LiveAllocation) (h : Tracked m live) :
    Tracked (stepCall P c m) (trackCall P c m live) := by
  obtain ⟨hnone, hsome⟩ := h
  cases c with
  | «open» numbufs bufSz isSecure alloc secure =>
    rcases alloc with _ | data
    · refine ⟨?_, ?_⟩
      · intro hl
        have : live = none := by
          rcases live with _ | l
          · rfl
          · simp [trackCall] at hl
        have hfd := hnone this
        cases isSecure <;> simpa [stepCall, OvMem.open, OvMem.openRequest] using hfd
      · intro l' hl'
        rcases live with _ | l
        · simp [trackCall] at hl'
        · obtain ⟨h1, h2, h3, -, -⟩ := hsome l rfl
          simp only [trackCall, Option.map_some', Option.some.injEq] at hl'
          subst hl'
          cases isSecure <;>
            simp [stepCall, OvMem.open, OvMem.openRequest, h1, h2, h3]
    · refine ⟨?_, ?_⟩
      · intro hl
        simp [trackCall] at hl
      · intro l' hl'
        simp only [trackCall, Option.some.injEq] at hl'
        subst hl'
        cases isSecure <;> cases secure <;>
          simp [stepCall, OvMem.open, OvMem.openRequest, OvMem.setSecure]
  | close secure free_ret =>
    by_cases hv : OvMem.valid P m = true
    · by_cases hf : free_ret = 0
      · refine ⟨?_, ?_⟩
        · intro _
          simp [stepCall, OvMem.close, hv, hf]
        · intro l' hl'
          simp [trackCall, hv, hf] at hl'
      · have htrack : trackCall P (OvCall.close secure free_ret) m live = live := by
          simp [trackCall, hf]
        rw [htrack]
        apply Tracked.of_same_allocation m _ live _ ⟨hnone, hsome⟩
        rcases hs : m.mSecured with _ | _ <;> cases secure <;>
          simp [stepCall, OvMem.close, hv, hf, hs, OvMem.setSecure]
    · have hv' : OvMem.valid P m = false := by simpa using hv
      have hstep : stepCall P (OvCall.close secure free_ret) m = m := by
        simp [stepCall, OvMem.close, hv']
      have htrack : trackCall P (OvCall.close secure free_ret) m live = live := by
        simp [trackCall, hv']
      rw [hstep, htrack]
      exact ⟨hnone, hsome⟩
  | setSecure enable secure =>
    have htrack : trackCall P (OvCall.setSecure enable secure) m live = live := rfl
    rw [htrack]
    cases secure <;> exact ⟨by simpa [stepCall, OvMem.setSecure] using hnone,
      by simpa [stepCall, OvMem.setSecure] using hsome⟩

/-- A sequence of calls keeps the members and the allocation held in step. -/
theorem liveAfter_tracked (P : Platform) (calls : List OvCall) :
    ∀ (m : OvMem) (live : Option LiveAllocation), Tracked m live →
      Tracked (runCalls P calls m) (liveAfter P calls m live) := by
  induction calls with
  | nil => intro m live h; exact h
  | cons c calls ih =>
    intro m live h
    exact ih _ _ (trackCall_tracked P c m live h)

/-- C22, as stated, fails: after `open(2, 4096, false)` succeeds and `open(8, 65536,
false)` fails, the handle is valid and still holds the first allocation, whose `open`
requested 8192 bytes, but `close` asks the allocator to free 524288 bytes. -/
theorem close_frees_size_of_failed_open :
    OvMem.valid samplePlatform
      (runCalls samplePlatform
        [OvCall.open 2 4096 false (some sampleReply) SecureOutcome.accepted,
         OvCall.open 8 65536 false none SecureOutcome.accepted]
        (OvMem.construct samplePlatform 0)) = true ∧
    (OvMem.openRequest samplePlatform 2 4096 false (OvMem.construct samplePlatform 0)).2.size
      = 8192 ∧
    OvMem.closeFrees samplePlatform SecureOutcome.accepted
      (runCalls samplePlatform
        [OvCall.open 2 4096 false (some sampleReply) SecureOutcome.accepted,
         OvCall.open 8 65536 false none SecureOutcome.accepted]
        (OvMem.construct samplePlatform 0)) =
      some { allocType := 1, base := 0x40000000, size := 524288, offset := 0, fd := 12 } := by
  decide

/-- C22, amended: in every valid state reached from a newly constructed handle by any
sequence of open, close and setSecure calls, `close` passes to the allocator's free call
the descriptor and the base address returned by the `open` that created the allocation
held, under the kind that `open` recorded, and a byte size equal to the total size
requested by the most recent `open` call; that is the total size the creating `open`
requested when no `open` has failed since. -/
theorem close_frees_live (P : Platform) (junk : Nat) (calls : List OvCall)
    (secure : SecureOutcome)
    (hv : OvMem.valid P (runCalls P calls (OvMem.construct P junk)) = true) :
    ∃ l : LiveAllocation,
      liveAfter P calls (OvMem.construct P junk) none = some l ∧
      OvMem.closeFrees P secure (runCalls P calls (OvMem.construct P junk)) =
        some { allocType := l.reply.allocType, base := l.reply.base,
               size := l.lastRequested, offset := 0, fd := l.reply.fd } ∧
      (l.failedSince = false → l.lastRequested = l.requested) := by
  have h0 : Tracked (OvMem.construct P junk) none :=
    ⟨fun _ => rfl, fun l hl => by cases hl⟩
  obtain ⟨hnone, hsome⟩ := liveAfter_tracked P calls _ _ h0
  generalize runCalls P calls (OvMem.construct P junk) = m at hv hnone hsome
  generalize liveAfter P calls (OvMem.construct P junk) none = live at hnone hsome
  rcases live with _ | l
  · have hfd := hnone rfl
    simp [OvMem.valid, hfd] at hv
  · obtain ⟨h1, h2, h3, h4, h5⟩ := hsome l rfl
    refine ⟨l, rfl, ?_, h5⟩
    have h4' : m.mBufSzAligned * m.mNumBuffers % 4294967296 = l.lastRequested := by
      simpa using h4
    rcases hs : m.mSecured with _ | _ <;> cases secure <;>
      simp [OvMem.closeFrees, hv, hs, OvMem.setSecure, h1, h2, h3, h4']

/-- C22 amended, on a run: a secure open of two 4097-byte buffers, then `setSecure(false)`.
The handle is valid and `close` frees descriptor 12, address 0x40000000 and the 2 MB
that the open requested. -/
theorem close_frees_live_witness :
    OvMem.valid samplePlatform
      (runCalls samplePlatform
        [OvCall.open 2 4097 true (some sampleReply) SecureOutcome.accepted,
         OvCall.setSecure false SecureOutcome.accepted]
        (OvMem.construct samplePlatform 0)) = true ∧
    (∃ l : LiveAllocation,
      liveAfter samplePlatform
        [OvCall.open 2 4097 true (some sampleReply) SecureOutcome.accepted,
         OvCall.setSecure false SecureOutcome.accepted]
        (OvMem.construct samplePlatform 0) none = some l ∧
      OvMem.closeFrees samplePlatform SecureOutcome.accepted
        (runCalls samplePlatform
          [OvCall.open 2 4097 true (some sampleReply) SecureOutcome.accepted,
           OvCall.setSecure false SecureOutcome.accepted]
          (OvMem.construct samplePlatform 0)) =
        some { allocType := l.reply.allocType, base := l.reply.base,
               size := l.lastRequested, offset := 0, fd := l.reply.fd } ∧
      (l.failedSince = false → l.lastRequested = l.requested)) ∧
    OvMem.closeFrees samplePlatform SecureOutcome.accepted
      (runCalls samplePlatform
        [OvCall.open 2 4097 true (some sampleReply) SecureOutcome.accepted,
         OvCall.setSecure false SecureOutcome.accepted]
        (OvMem.construct samplePlatform 0)) =
      some { allocType := 1, base := 0x40000000, size := 0x200000, offset := 0, fd := 12 } :=
  ⟨by decide,
   close_frees_live samplePlatform 0
     [OvCall.open 2 4097 true (some sampleReply) SecureOutcome.accepted,
      OvCall.setSecure false SecureOutcome.accepted]
     SecureOutcome.accepted (by decide),
   by decide⟩

/-- C23, as stated, fails: for 65536 buffers of 65536 bytes a non-secure `open` requests
the 32-bit product, which is 0, while the client asked for 2^32 bytes; and for one
buffer of 2^32 - 1 bytes a secure `open` stores the aligned per-buffer size 0. -/
theorem open_request_wraps :
    (OvMem.openRequest samplePlatform 65536 65536 false
      (OvMem.construct samplePlatform 0)).2.size = 0 ∧
    ¬ (65536 * 65536 ≤ (OvMem.openRequest samplePlatform 65536 65536 false
      (OvMem.construct samplePlatform 0)).2.size) ∧
    (OvMem.openRequest samplePlatform 1 4294967295 true
      (OvMem.construct samplePlatform 0)).1.mBufSzAligned = 0 ∧
    ¬ (4294967295 ≤ (OvMem.openRequest samplePlatform 1 4294967295 true
      (OvMem.construct samplePlatform 0)).1.mBufSzAligned) := by
  decide

/-- C23, amended: for non-zero `numbufs` and `bufSz` and either mode, when `numbufs` times
the per-buffer size of the mode (`bufSz` rounded up to a multiple of 0x100000 for a
secure open, `bufSz` otherwise) is below 2^32, the total size passed to the allocator is
that product, it is at least `numbufs * bufSz`, and the aligned per-buffer size is at
least `bufSz`. -/
theorem open_request_covers (P : Platform) (numbufs bufSz : Nat) (isSecure : Bool)
    (m : OvMem) (hn : numbufs ≠ 0) (_hb : bufSz ≠ 0)
    (hfit : numbufs * (if isSecure then align bufSz SIZE_1M else bufSz) < 2 ^ 32) :
    (OvMem.openRequest P numbufs bufSz isSecure m).2.size =
      numbufs * (if isSecure then align bufSz SIZE_1M else bufSz) ∧
    numbufs * bufSz ≤ (OvMem.openRequest P numbufs bufSz isSecure m).2.size ∧
    bufSz ≤ (OvMem.openRequest P numbufs bufSz isSecure m).1.mBufSzAligned := by
  have hpos : 0 < numbufs := Nat.pos_of_ne_zero hn
  cases isSecure with
  | false =>
    simp only [Bool.false_eq_true, if_false] at hfit ⊢
    have hsize : (OvMem.openRequest P numbufs bufSz false m).2.size = numbufs * bufSz := by
      show bufSz * numbufs % 2 ^ 32 = numbufs * bufSz
      rw [Nat.mul_comm, Nat.mod_eq_of_lt hfit]
    exact ⟨hsize, le_of_eq hsize.symm, le_refl bufSz⟩
  | true =>
    simp only [if_true] at hfit ⊢
    obtain ⟨-, hle, -⟩ := align_least bufSz SIZE_1M (by decide)
    have hal : align bufSz SIZE_1M < 2 ^ 32 :=
      lt_of_le_of_lt (Nat.le_mul_of_pos_left _ hpos) hfit
    have hmod : align bufSz SIZE_1M % 2 ^ 32 = align bufSz SIZE_1M := Nat.mod_eq_of_lt hal
    have hper : (OvMem.openRequest P numbufs bufSz true m).1.mBufSzAligned =
        align bufSz SIZE_1M := by
      show align bufSz SIZE_1M % 2 ^ 32 = align bufSz SIZE_1M
      exact hmod
    have hsize : (OvMem.openRequest P numbufs bufSz true m).2.size =
        numbufs * align bufSz SIZE_1M := by
      show align bufSz SIZE_1M % 2 ^ 32 * numbufs % 2 ^ 32 = numbufs * align bufSz SIZE_1M
      rw [hmod, Nat.mul_comm, Nat.mod_eq_of_lt hfit]
    refine ⟨hsize, ?_, ?_⟩
    · rw [hsize]; exact Nat.mul_le_mul_left _ hle
    · rw [hper]; exact hle

/-- C23 amended, for two buffers of 4097 bytes: the secure request is 2 MB and the
non-secure request 8194 bytes, neither below the 8194 bytes asked for. -/
theorem open_request_covers_witness :
    2 * (if true then align 4097 SIZE_1M else 4097) < 2 ^ 32 ∧
    2 * 4097 ≤ (OvMem.openRequest samplePlatform 2 4097 true
      (OvMem.construct samplePlatform 0)).2.size ∧
    (OvMem.openRequest samplePlatform 2 4097 true
      (OvMem.construct samplePlatform 0)).2.size = 0x200000 ∧
    (OvMem.openRequest samplePlatform 2 4097 false
      (OvMem.construct samplePlatform 0)).2.size = 8194 :=
  have hfit : 2 * (if true then align 4097 SIZE_1M else 4097) < 2 ^ 32 := by decide
  ⟨hfit,
   (open_request_covers samplePlatform 2 4097 true (OvMem.construct samplePlatform 0)
      (by decide) (by decide) hfit).2.1,
   by decide, by decide⟩

end overlay
